import Mathlib

/-!
Verification of the reporting / SBOM-export / CVE-resolution core of an ECU
firmware vulnerability scanner.  The definitions below are a shallow embedding
of the three request handlers (`generate-report`, `export-sbom`, `fetch-cve`)
and their pure helper functions (`generateCycloneDX`, `generateSPDX`,
`generateSWID`, `escapeXml`).  JSON documents built by the handlers are
modelled as Lean structures (their `JSON.stringify` serialization is a
deterministic function of the structure); template strings are modelled as
explicit `String` concatenation; JavaScript `a || b` fallbacks on strings are
modelled by `jsOr` (which treats both `null` and the empty string as falsy,
as JS does); machine timestamps (`new Date()`, `Date.now()`) are passed in as
explicit parameters.
-/

/-- JavaScript `a || b` for a nullable string `a`: yields `b` when `a` is
`null`/`undefined` or the empty string (both falsy in JS). -/
def jsOr (a : Option String) (b : String) : String :=
  match a with
  | some v => if v = "" then b else v
  | none => b

/-- JavaScript `a || b` for a plain string `a` (empty string is falsy). -/
def jsOrStr (a b : String) : String :=
  if a = "" then b else a

/-- JavaScript `(x as string[]) || []` for a nullable array: only `null` /
`undefined` is falsy (an empty array is truthy and kept as-is). -/
def jsList (o : Option (List String)) : List String :=
  o.getD []

/-- Digits of `n` in base 10, least significant first. -/
def digitsRev (n : Nat) : List Nat :=
  if n < 10 then [n] else n % 10 :: digitsRev (n / 10)
termination_by n
decreasing_by omega

/-- Value of a least-significant-first digit list. -/
def valRev : List Nat → Nat
  | [] => 0
  | d :: ds => d + 10 * valRev ds

/-- Decimal rendering of a JS number used in template literals such as
`component-(index)`: digits of `n` in base 10, most significant first. -/
def natToString (n : Nat) : String :=
  ⟨(digitsRev n).reverse.map Nat.digitChar⟩

/-- JavaScript `Array.prototype.join(sep)`. -/
def joinSep (sep : String) : List String → String
  | [] => ""
  | [x] => x
  | x :: y :: xs => x ++ sep ++ joinSep sep (y :: xs)

/-- JavaScript `String.prototype.toLowerCase` (per-character lowering). -/
def jsToLower (s : String) : String :=
  ⟨s.data.map Char.toLower⟩

/-- JavaScript `String.prototype.toUpperCase` (per-character raising). -/
def jsToUpper (s : String) : String :=
  ⟨s.data.map Char.toUpper⟩

/-- JavaScript `str.replace(/c/g, r)` for a single-character pattern `c`:
every occurrence of the character is replaced by the string `r`. -/
def replaceChar (c : Char) (r : List Char) : List Char → List Char
  | [] => []
  | x :: xs => (if x = c then r else [x]) ++ replaceChar c r xs

/-- Transcription of `escapeXml` from `export-sbom/index.ts`: five ordered
global substitutions, ampersand first. -/
def escapeXml (str : String) : String :=
  if str = "" then ""
  else
    ⟨replaceChar '\'' "&apos;".data
      (replaceChar '"' "&quot;".data
        (replaceChar '>' "&gt;".data
          (replaceChar '<' "&lt;".data
            (replaceChar '&' "&amp;".data str.data))))⟩

/-! Data model (store rows, immutable-per-call snapshots). -/

/-- Severity enumeration for vulnerabilities (closed set per the data model). -/
inductive Severity where
  | critical
  | high
  | medium
  | low
  | info
deriving Repr, DecidableEq

/-- Compliance result status enumeration (closed set per the data model). -/
inductive ComplianceStatus where
  | pass
  | fail
  | warning
deriving Repr, DecidableEq

/-- Scan row (`scans` table).  Nullable columns are `Option`s. -/
structure Scan where
  id : String
  ecu_name : String
  ecu_type : String
  version : Option String
  manufacturer : Option String
  architecture : Option String
  file_name : String
  file_hash : Option String
  file_size : Nat
  status : String
  created_at : String
  completed_at : Option String
  risk_score : Option Nat
  executive_summary : Option String
deriving Repr, DecidableEq

/-- Vulnerability row (`vulnerabilities` table), scoped to a scan. -/
structure Vulnerability where
  id : String
  cve_id : Option String
  cwe_id : Option String
  severity : Severity
  cvss_score : Option Rat
  title : String
  description : Option String
  affected_component : Option String
  affected_function : Option String
  code_snippet : Option String
  line_number : Option Nat
  detection_method : Option String
  status : String
  remediation : Option String
  attack_vector : Option String
  impact : Option String
deriving Repr, DecidableEq

/-- Compliance result row (`compliance_results` table). -/
structure ComplianceResult where
  framework : String
  rule_id : String
  rule_description : Option String
  status : ComplianceStatus
  details : Option String
deriving Repr, DecidableEq

/-- SBOM component row (`sbom_components` table). -/
structure SBOMComponent where
  component_name : String
  version : Option String
  license : Option String
  source_file : Option String
  vulnerabilities : Option (List String)
deriving Repr, DecidableEq

/-- Analysis log row (`analysis_logs` table). -/
structure AnalysisLog where
  stage : String
  log_level : String
  message : String
  created_at : String
deriving Repr, DecidableEq

/-! SWID encoder (`generateSWID` in `export-sbom/index.ts`). -/

/-- Transcription of the `entities` constant of `generateSWID`.  Note that the
source computes this value but never inserts it into the returned template. -/
def swidEntities (components : List SBOMComponent) : String :=
  joinSep "\n" (components.map fun comp =>
    "    <Entity name=\"" ++ escapeXml comp.component_name ++ "\" role=\"softwareCreator\" />")

/-- Transcription of the `payloads` constant of `generateSWID`.  Note that the
source computes this value but never inserts it into the returned template. -/
def swidPayloads (components : List SBOMComponent) : String :=
  joinSep "" (components.map fun comp =>
    "\n    <Payload>\n      <File name=\"" ++ escapeXml (jsOr comp.source_file comp.component_name)
      ++ "\" \n            version=\"" ++ escapeXml (jsOr comp.version "unknown")
      ++ "\"\n            size=\"0\" />\n    </Payload>")

/-- Transcription of `generateSWID` from `export-sbom/index.ts` (the returned
template literal, with each interpolation written as concatenation). -/
def generateSWID (scan : Scan) (components : List SBOMComponent) : String :=
  "<?xml version=\"1.0\" encoding=\"UTF-8\"?>\n<SoftwareIdentity\n    xmlns=\"http://standards.iso.org/iso/19770/-2/2015/schema.xsd\"\n    name=\""
    ++ escapeXml scan.ecu_name
    ++ "\"\n    tagId=\""
    ++ scan.id
    ++ "\"\n    version=\""
    ++ escapeXml (jsOr scan.version "1.0.0")
    ++ "\"\n    versionScheme=\"semver\">\n  \n  <Entity name=\""
    ++ escapeXml (jsOr scan.manufacturer "Unknown")
    ++ "\" role=\"tagCreator\" />\n  <Entity name=\"ECU Security Scanner\" role=\"tagCreator\" />\n  \n  <Meta \n    product=\""
    ++ escapeXml scan.ecu_name
    ++ "\"\n    colloquialVersion=\""
    ++ escapeXml (jsOr scan.version "unknown")
    ++ "\"\n    revision=\""
    ++ jsOr scan.architecture "unknown"
    ++ "\"\n    edition=\""
    ++ escapeXml scan.ecu_type
    ++ "\" />\n\n  <Payload>\n    <Directory name=\"components\">\n"
    ++ joinSep "\n" (components.map fun comp =>
        "      <File name=\"" ++ escapeXml comp.component_name
          ++ "\" version=\"" ++ escapeXml (jsOr comp.version "unknown") ++ "\" />")
    ++ "\n    </Directory>\n  </Payload>\n\n</SoftwareIdentity>"

/-! CycloneDX encoder (`generateCycloneDX` in `export-sbom/index.ts`).  The
JSON object built by the source before `JSON.stringify` is modelled as a
structure; the `new Date().toISOString()` timestamp is the `now` parameter. -/

/-- Property entry of a CycloneDX component (`name` / `value` pair; the value
is nullable because the source inserts `scan.architecture` unguarded). -/
structure CdxProperty where
  name : String
  value : Option String
deriving Repr, DecidableEq

/-- License entry of a CycloneDX component (`{ license: { id } }`). -/
structure CdxLicenseId where
  id : String
deriving Repr, DecidableEq

/-- Component entry of the CycloneDX `components` array.  `bomRef` models the
JSON key `bom-ref`. -/
structure CdxComponent where
  type : String
  bomRef : String
  name : String
  version : String
  licenses : List CdxLicenseId
  purl : String
  properties : List CdxProperty
deriving Repr, DecidableEq

/-- Tool entry of the CycloneDX metadata block. -/
structure CdxToolInfo where
  vendor : String
  name : String
  version : String
deriving Repr, DecidableEq

/-- Metadata component of the CycloneDX document (the firmware itself). -/
structure CdxMetaComponent where
  type : String
  name : String
  version : String
  description : String
  properties : List CdxProperty
deriving Repr, DecidableEq

/-- Metadata block of the CycloneDX document. -/
structure CdxMetadata where
  timestamp : String
  tools : List CdxToolInfo
  component : CdxMetaComponent
deriving Repr, DecidableEq

/-- Source citation of a CycloneDX vulnerability entry. -/
structure CdxVulnSource where
  name : String
  url : String
deriving Repr, DecidableEq

/-- Affects entry of a CycloneDX vulnerability entry (`{ ref }`). -/
structure CdxAffects where
  ref : String
deriving Repr, DecidableEq

/-- Entry of the top-level CycloneDX `vulnerabilities` array. -/
structure CdxVulnerability where
  id : String
  source : CdxVulnSource
  affects : List CdxAffects
deriving Repr, DecidableEq

/-- CycloneDX 1.5 document. -/
structure CycloneDXDoc where
  bomFormat : String
  specVersion : String
  serialNumber : String
  version : Nat
  metadata : CdxMetadata
  components : List CdxComponent
  vulnerabilities : List CdxVulnerability
deriving Repr, DecidableEq

/-- Transcription of `generateCycloneDX` from `export-sbom/index.ts`. -/
def generateCycloneDX (now : String) (scan : Scan) (components : List SBOMComponent) :
    CycloneDXDoc :=
  { bomFormat := "CycloneDX"
    specVersion := "1.5"
    serialNumber := "urn:uuid:" ++ scan.id
    version := 1
    metadata :=
      { timestamp := now
        tools := [⟨"ECU Security Scanner", "Automotive Firmware Analyzer", "1.0.0"⟩]
        component :=
          { type := "firmware"
            name := scan.ecu_name
            version := jsOr scan.version "unknown"
            description := scan.ecu_type ++ " ECU from " ++ jsOr scan.manufacturer "Unknown"
            properties :=
              [⟨"architecture", scan.architecture⟩,
               ⟨"manufacturer", some (jsOr scan.manufacturer "Unknown")⟩] } }
    components := components.mapIdx fun index comp =>
      { type := "library"
        bomRef := "component-" ++ natToString index
        name := comp.component_name
        version := jsOr comp.version "unknown"
        licenses :=
          match comp.license with
          | some l => if l = "" then [] else [⟨l⟩]
          | none => []
        purl := "pkg:generic/" ++ comp.component_name ++ "@" ++ jsOr comp.version "unknown"
        properties := [⟨"source_file", some (jsOr comp.source_file "unknown")⟩] }
    vulnerabilities :=
      (components.mapIdx fun compIndex comp =>
        (jsList comp.vulnerabilities).map fun cve =>
          { id := cve
            source := ⟨"NVD", "https://nvd.nist.gov/vuln/detail/" ++ cve⟩
            affects := [⟨"component-" ++ natToString compIndex⟩] }).flatten }

/-! SPDX encoder (`generateSPDX` in `export-sbom/index.ts`). -/

/-- External reference of an SPDX package (security references here). -/
structure SpdxExternalRef where
  referenceCategory : String
  referenceType : String
  referenceLocator : String
deriving Repr, DecidableEq

/-- SPDX package.  Fields that appear only on the root package (or only on
component packages) in the source JSON are `Option`s, `none` meaning the key
is absent from that package object. -/
structure SpdxPackage where
  SPDXID : String
  name : String
  versionInfo : String
  packageFileName : Option String
  downloadLocation : String
  filesAnalyzed : Bool
  supplier : Option String
  primaryPackagePurpose : Option String
  licenseConcluded : Option String
  licenseDeclared : Option String
  copyrightText : Option String
  externalRefs : Option (List SpdxExternalRef)
deriving Repr, DecidableEq

/-- SPDX relationship entry. -/
structure SpdxRelationship where
  spdxElementId : String
  relationshipType : String
  relatedSpdxElement : String
deriving Repr, DecidableEq

/-- SPDX 2.3 document. -/
structure SpdxDoc where
  spdxVersion : String
  dataLicense : String
  SPDXID : String
  name : String
  documentNamespace : String
  created : String
  creators : List String
  licenseListVersion : String
  packages : List SpdxPackage
  relationships : List SpdxRelationship
deriving Repr, DecidableEq

/-- Transcription of `generateSPDX` from `export-sbom/index.ts`. -/
def generateSPDX (now : String) (scan : Scan) (components : List SBOMComponent) : SpdxDoc :=
  { spdxVersion := "SPDX-2.3"
    dataLicense := "CC0-1.0"
    SPDXID := "SPDXRef-DOCUMENT"
    name := "SBOM for " ++ scan.ecu_name
    documentNamespace := "https://spdx.org/spdxdocs/" ++ scan.id
    created := now
    creators := ["Tool: ECU Security Scanner-1.0.0"]
    licenseListVersion := "3.19"
    packages :=
      { SPDXID := "SPDXRef-RootPackage"
        name := scan.ecu_name
        versionInfo := jsOr scan.version "unknown"
        packageFileName := some scan.file_name
        downloadLocation := "NOASSERTION"
        filesAnalyzed := false
        supplier := some (match scan.manufacturer with
          | some m => if m = "" then "NOASSERTION" else "Organization: " ++ m
          | none => "NOASSERTION")
        primaryPackagePurpose := some "FIRMWARE"
        licenseConcluded := none
        licenseDeclared := none
        copyrightText := none
        externalRefs := none } ::
      components.mapIdx fun index comp =>
        { SPDXID := "SPDXRef-Package-" ++ natToString index
          name := comp.component_name
          versionInfo := jsOr comp.version "NOASSERTION"
          packageFileName := none
          downloadLocation := "NOASSERTION"
          filesAnalyzed := false
          supplier := none
          primaryPackagePurpose := none
          licenseConcluded := some (jsOr comp.license "NOASSERTION")
          licenseDeclared := some (jsOr comp.license "NOASSERTION")
          copyrightText := some "NOASSERTION"
          externalRefs := some ((jsList comp.vulnerabilities).map fun cve =>
            ⟨"SECURITY", "cpe23Type", cve⟩) }
    relationships := components.mapIdx fun index _ =>
      { spdxElementId := "SPDXRef-RootPackage"
        relationshipType := "CONTAINS"
        relatedSpdxElement := "SPDXRef-Package-" ++ natToString index } }

/-! Export handler (`serve` in `export-sbom/index.ts`). -/

/-- Encoded SBOM document (before the handler wraps it in the response
envelope).  For the JSON formats the structured document stands for its
`JSON.stringify` serialization. -/
inductive SbomDocument where
  | cyclonedx (doc : CycloneDXDoc)
  | spdx (doc : SpdxDoc)
  | swid (xml : String)
deriving Repr, DecidableEq

/-- Result of the export-sbom handler. -/
inductive ExportResult where
  | notFound
  | invalidFormat
  | ok (data : SbomDocument) (filename : String) (contentType : String)
deriving Repr, DecidableEq

/-- Transcription of the `export-sbom` handler body: `scanRow` is the result
of the scan lookup (`null` when the row is absent) and `componentRows` the
result of the component query (`null` only when the store returns no array;
for an existing scan with no components the store yields `some []`). -/
def exportSbomHandler (now : String) (scanRow : Option Scan)
    (componentRows : Option (List SBOMComponent)) (format : String) : ExportResult :=
  match scanRow, componentRows with
  | some scan, some components =>
    if format = "cyclonedx" then
      .ok (.cyclonedx (generateCycloneDX now scan components))
        (scan.ecu_name ++ "-sbom-cyclonedx.json") "application/json"
    else if format = "spdx" then
      .ok (.spdx (generateSPDX now scan components))
        (scan.ecu_name ++ "-sbom-spdx.json") "application/json"
    else if format = "swid" then
      .ok (.swid (generateSWID scan components))
        (scan.ecu_name ++ "-sbom-swid.xml") "application/xml"
    else .invalidFormat
  | _, _ => .notFound

/-! Report generator (`generate-report` handler, plus the client hook
`useGenerateReport` from `src/hooks/useScans.ts`). -/

/-- Modelled from the spec: the severity ordinal used by the store for the
vulnerability query `order('severity', { ascending: true })`.  The database
schema that defines this ordinal is not part of the sources; per the spec the
implementer defines a deterministic total order over
critical, high, medium, low, info mapped to ordinal values 0..4 ascending. -/
def severityOrd : Severity → Nat
  | .critical => 0
  | .high => 1
  | .medium => 2
  | .low => 3
  | .info => 4

/-- Modelled from the spec: result of the store query
`from('vulnerabilities').select('*').eq('scan_id', scanId)
.order('severity', { ascending: true })` — the scan's rows sorted by the
severity ordinal ascending. -/
def fetchVulnerabilities (rows : List Vulnerability) : List Vulnerability :=
  List.insertionSort (fun a b => severityOrd a.severity ≤ severityOrd b.severity) rows

/-- Severity bucket counts of the report summary (`vulnStats`). -/
structure VulnStats where
  critical : Nat
  high : Nat
  medium : Nat
  low : Nat
  info : Nat
deriving Repr, DecidableEq

/-- Transcription of the `vulnStats` computation of the handler. -/
def mkVulnStats (vulnerabilities : List Vulnerability) : VulnStats :=
  { critical := (vulnerabilities.filter fun v => v.severity = .critical).length
    high := (vulnerabilities.filter fun v => v.severity = .high).length
    medium := (vulnerabilities.filter fun v => v.severity = .medium).length
    low := (vulnerabilities.filter fun v => v.severity = .low).length
    info := (vulnerabilities.filter fun v => v.severity = .info).length }

/-- Compliance bucket counts of the report summary (`complianceStats`). -/
structure ComplianceStats where
  pass : Nat
  fail : Nat
  warning : Nat
deriving Repr, DecidableEq

/-- Transcription of the `complianceStats` computation of the handler. -/
def mkComplianceStats (complianceResults : List ComplianceResult) : ComplianceStats :=
  { pass := (complianceResults.filter fun c => c.status = .pass).length
    fail := (complianceResults.filter fun c => c.status = .fail).length
    warning := (complianceResults.filter fun c => c.status = .warning).length }

/-- Whether `2 ^ e ≤ num / den` holds, stated over naturals so that it is
kernel-decidable (`pow2LeRat_iff` relates it to the rational inequality). -/
def pow2LeRat (e : Int) (num den : Nat) : Prop :=
  if 0 ≤ e then den * 2 ^ e.toNat ≤ num else den ≤ num * 2 ^ (-e).toNat

instance (e : Int) (num den : Nat) : Decidable (pow2LeRat e num den) :=
  if he : 0 ≤ e then
    decidable_of_iff (den * 2 ^ e.toNat ≤ num) (by simp [pow2LeRat, he])
  else
    decidable_of_iff (den ≤ num * 2 ^ (-e).toNat) (by simp [pow2LeRat, he])

/-- Binary exponent of the positive rational `num / den`: the unique `L` with
`2 ^ L ≤ num / den < 2 ^ (L + 1)` (see `ratLog2_bounds`). -/
def ratLog2 (num den : Nat) : Int :=
  let e : Int := (Nat.log2 num : Int) - (Nat.log2 den : Int)
  if pow2LeRat e num den then e else e - 1

/-- `num / den` rounded to the nearest natural, ties to even — the integer
core of IEEE-754 round-to-nearest-even. -/
def rne (num den : Nat) : Nat :=
  let m0 := num / den
  let r := num % den
  if 2 * r < den then m0
  else if den < 2 * r then m0 + 1
  else if m0 % 2 = 0 then m0 else m0 + 1

/-- A nonnegative IEEE-754 binary64 value `m * 2 ^ e`, represented exactly as
an integer pair.  The scores handled here stay far below the overflow and
53-bit-mantissa ranges, so neither infinities nor inexact integers arise. -/
structure Dbl where
  m : Nat
  e : Int
deriving Repr, DecidableEq

/-- The nonnegative rational `num / den` rounded to binary64: the significand
is rounded to 53 bits (exponent `ratLog2 - 52`) with round-to-nearest-even,
clamped below at the subnormal quantum `2 ^ (-1074)`. -/
def roundB64 (num den : Nat) : Dbl :=
  if num = 0 ∨ den = 0 then ⟨0, 0⟩
  else
    let ep : Int := max (ratLog2 num den - 52) (-1074)
    if 0 ≤ ep then ⟨rne num (den * 2 ^ ep.toNat), ep⟩
    else ⟨rne (num * 2 ^ (-ep).toNat) den, ep⟩

/-- Exact rational value of a `Dbl`. -/
def dblVal (x : Dbl) : ℚ := (x.m : ℚ) * (2 : ℚ) ^ x.e

/-- JS `p / d` on numbers holding naturals: the quotient rounded to binary64. -/
def jsDivPair (p d : Nat) : Dbl := roundB64 p d

/-- JS `x * 100`: the exact product re-rounded to binary64. -/
def dblMul100 (x : Dbl) : Dbl :=
  if 0 ≤ x.e then roundB64 (x.m * 100 * 2 ^ x.e.toNat) 1
  else roundB64 (x.m * 100) (2 ^ (-x.e).toNat)

/-- ECMA `Math.round` on a nonnegative binary64 value: `⌊x + 1/2⌋`, computed
on the integer representation (see `mathRoundDbl_eq_floor`). -/
def mathRoundDbl (x : Dbl) : Nat :=
  if 0 ≤ x.e then x.m * 2 ^ x.e.toNat
  else (2 * x.m + 2 ^ (-x.e).toNat) / 2 ^ ((-x.e).toNat + 1)

/-- Transcription of the `compliance_score` expression of the report summary:
`Math.round((pass / (pass + fail + warning)) * 100)` when the denominator is
positive, `0` otherwise, with the division and the multiplication by 100
evaluated in IEEE-754 binary64 as JS numbers are (both operands of the
division are integer counts, exact in binary64 far below `2 ^ 53`, so the
only roundings are the two modelled ones). -/
def complianceScore (s : ComplianceStats) : Int :=
  if s.pass + s.fail + s.warning > 0 then
    (mathRoundDbl (dblMul100 (jsDivPair s.pass (s.pass + s.fail + s.warning))) : Int)
  else 0

/-- Scan metadata subset embedded in the report. -/
structure ReportScanMeta where
  id : String
  ecu_name : String
  ecu_type : String
  version : Option String
  manufacturer : Option String
  architecture : Option String
  file_name : String
  file_hash : Option String
  file_size : Nat
  status : String
  created_at : String
  completed_at : Option String
  risk_score : Option Nat
  executive_summary : Option String
deriving Repr, DecidableEq

/-- Summary block of the report. -/
structure ReportSummary where
  total_vulnerabilities : Nat
  vulnerability_breakdown : VulnStats
  compliance_breakdown : ComplianceStats
  compliance_score : Int
  sbom_components_count : Nat
deriving Repr, DecidableEq

/-- Field-projected vulnerability entry of the report. -/
structure ReportVulnEntry where
  id : String
  cve_id : Option String
  cwe_id : Option String
  severity : Severity
  cvss_score : Option Rat
  title : String
  description : Option String
  affected_component : Option String
  affected_function : Option String
  code_snippet : Option String
  line_number : Option Nat
  detection_method : Option String
  status : String
  remediation : Option String
  attack_vector : Option String
  impact : Option String
deriving Repr, DecidableEq

/-- Projection of a vulnerability row into the report entry. -/
def projectVuln (v : Vulnerability) : ReportVulnEntry :=
  { id := v.id, cve_id := v.cve_id, cwe_id := v.cwe_id, severity := v.severity
    cvss_score := v.cvss_score, title := v.title, description := v.description
    affected_component := v.affected_component, affected_function := v.affected_function
    code_snippet := v.code_snippet, line_number := v.line_number
    detection_method := v.detection_method, status := v.status
    remediation := v.remediation, attack_vector := v.attack_vector, impact := v.impact }

/-- Compliance entry of the report. -/
structure ReportComplianceEntry where
  framework : String
  rule_id : String
  rule_description : Option String
  status : ComplianceStatus
  details : Option String
deriving Repr, DecidableEq

/-- SBOM entry of the report. -/
structure ReportSbomEntry where
  component_name : String
  version : Option String
  license : Option String
  source_file : Option String
  vulnerabilities : Option (List String)
deriving Repr, DecidableEq

/-- Timeline entry of the report. -/
structure ReportTimelineEntry where
  stage : String
  level : String
  message : String
  timestamp : String
deriving Repr, DecidableEq

/-- Structured report document (the `report` object of the handler). -/
structure Report where
  generated_at : String
  scan : ReportScanMeta
  summary : ReportSummary
  vulnerabilities : List ReportVulnEntry
  compliance_results : List ReportComplianceEntry
  sbom : List ReportSbomEntry
  analysis_timeline : List ReportTimelineEntry
deriving Repr, DecidableEq

/-- Transcription of the `report` object built by the `generate-report`
handler.  `vulnerabilities` is the severity-ordered query result (see
`fetchVulnerabilities`); `analysisLogs` is assumed already ordered by
creation time as the store query requests. -/
def buildReport (now : String) (scan : Scan) (vulnerabilities : List Vulnerability)
    (complianceResults : List ComplianceResult) (sbomComponents : List SBOMComponent)
    (analysisLogs : List AnalysisLog) : Report :=
  let vulnStats := mkVulnStats vulnerabilities
  let complianceStats := mkComplianceStats complianceResults
  { generated_at := now
    scan :=
      { id := scan.id, ecu_name := scan.ecu_name, ecu_type := scan.ecu_type
        version := scan.version, manufacturer := scan.manufacturer
        architecture := scan.architecture, file_name := scan.file_name
        file_hash := scan.file_hash, file_size := scan.file_size, status := scan.status
        created_at := scan.created_at, completed_at := scan.completed_at
        risk_score := scan.risk_score, executive_summary := scan.executive_summary }
    summary :=
      { total_vulnerabilities := vulnerabilities.length
        vulnerability_breakdown := vulnStats
        compliance_breakdown := complianceStats
        compliance_score := complianceScore complianceStats
        sbom_components_count := sbomComponents.length }
    vulnerabilities := vulnerabilities.map projectVuln
    compliance_results := complianceResults.map fun c =>
      { framework := c.framework, rule_id := c.rule_id
        rule_description := c.rule_description, status := c.status, details := c.details }
    sbom := sbomComponents.map fun s =>
      { component_name := s.component_name, version := s.version, license := s.license
        source_file := s.source_file, vulnerabilities := s.vulnerabilities }
    analysis_timeline := analysisLogs.map fun l =>
      { stage := l.stage, level := l.log_level, message := l.message,
        timestamp := l.created_at } }

/-! Markdown rendering of the report (`textReport` template of the handler). -/

/-- Stored lower-case text of a severity value. -/
def severityText : Severity → String
  | .critical => "critical"
  | .high => "high"
  | .medium => "medium"
  | .low => "low"
  | .info => "info"

/-- JavaScript template interpolation of a nullable string: `null` prints as
the literal text `null`. -/
def jsTpl (o : Option String) : String :=
  match o with
  | some v => v
  | none => "null"

/-- Rendering of an integer in a JS template literal. -/
def intToString (i : Int) : String :=
  if i < 0 then "-" ++ natToString i.natAbs else natToString i.toNat

/-- Rendering of a JS number in a template literal, modelled by Lean's
rational to-string; the exact JS decimal formatting is not re-implemented
(no claim depends on the rendered digits). -/
def ratText (q : Rat) : String :=
  toString q

/-- Markdown text for `v.cvss_score || 'N/A'` (the number 0 is falsy). -/
def cvssText (score : Option Rat) : String :=
  match score with
  | some q => if q = 0 then "N/A" else ratText q
  | none => "N/A"

/-- Markdown text for `scan.risk_score || 'N/A'` (the number 0 is falsy). -/
def riskText (score : Option Nat) : String :=
  match score with
  | some n => if n = 0 then "N/A" else natToString n
  | none => "N/A"

/-- Entry of the detailed-vulnerabilities markdown section (the inner template
literal of `vulnerabilities?.map((v, i) => ...)`). -/
def mdVulnEntry (i : Nat) (v : Vulnerability) : String :=
  "\n### " ++ natToString (i + 1) ++ ". " ++ v.title
    ++ "\n\n- **Severity:** " ++ jsToUpper (severityText v.severity)
    ++ "\n- **CVE:** " ++ jsOr v.cve_id "N/A"
    ++ "\n- **CWE:** " ++ jsOr v.cwe_id "N/A"
    ++ "\n- **CVSS Score:** " ++ cvssText v.cvss_score
    ++ "\n- **Component:** " ++ jsOr v.affected_component "N/A"
    ++ "\n- **Function:** " ++ jsOr v.affected_function "N/A"
    ++ "\n- **Detection Method:** " ++ jsOr v.detection_method "N/A"
    ++ "\n\n**Description:**\n" ++ jsOr v.description "No description available."
    ++ "\n\n**Remediation:**\n" ++ jsOr v.remediation "No remediation guidance available."
    ++ "\n\n"
    ++ (match v.code_snippet with
        | some cs => if cs = "" then "" else "**Code Snippet:**\n```c\n" ++ cs ++ "\n```"
        | none => "")
    ++ "\n"

/-- Detailed-vulnerabilities section:
`vulnerabilities?.map(...).join('\n') || 'No vulnerabilities found.'`. -/
def mdDetailedVulns (vulnerabilities : List Vulnerability) : String :=
  jsOrStr (joinSep "\n" (vulnerabilities.mapIdx mdVulnEntry)) "No vulnerabilities found."

/-- SBOM table rows of the markdown report. -/
def mdSbomRows (sbomComponents : List SBOMComponent) : String :=
  jsOrStr (joinSep "\n" (sbomComponents.map fun s =>
      "| " ++ s.component_name ++ " | " ++ jsOr s.version "N/A" ++ " | "
        ++ jsOr s.license "N/A" ++ " |"))
    "| No components detected | | |"

/-- Transcription of the `textReport` template literal of the handler.
`nowLocale` stands for `new Date().toLocaleString()`. -/
def generateMarkdownReport (nowLocale : String) (scan : Scan)
    (vulnerabilities : List Vulnerability) (complianceResults : List ComplianceResult)
    (sbomComponents : List SBOMComponent) : String :=
  let vulnStats := mkVulnStats vulnerabilities
  let complianceStats := mkComplianceStats complianceResults
  "\n# ECU Vulnerability Scan Report\n\nGenerated: " ++ nowLocale
    ++ "\n\n## Scan Information\n\n- **ECU Name:** " ++ scan.ecu_name
    ++ "\n- **ECU Type:** " ++ scan.ecu_type
    ++ "\n- **Version:** " ++ jsOr scan.version "N/A"
    ++ "\n- **Manufacturer:** " ++ jsOr scan.manufacturer "N/A"
    ++ "\n- **Architecture:** " ++ jsTpl scan.architecture
    ++ "\n- **File:** " ++ scan.file_name
    ++ "\n- **Risk Score:** " ++ riskText scan.risk_score
    ++ "/100\n\n## Executive Summary\n\n"
    ++ jsOr scan.executive_summary "No executive summary available."
    ++ "\n\n## Vulnerability Summary\n\n| Severity | Count |\n|----------|-------|\n| Critical | "
    ++ natToString vulnStats.critical
    ++ " |\n| High | " ++ natToString vulnStats.high
    ++ " |\n| Medium | " ++ natToString vulnStats.medium
    ++ " |\n| Low | " ++ natToString vulnStats.low
    ++ " |\n| Info | " ++ natToString vulnStats.info
    ++ " |\n| **Total** | **" ++ natToString vulnerabilities.length
    ++ "** |\n\n## Compliance Summary\n\n| Status | Count |\n|--------|-------|\n| Pass | "
    ++ natToString complianceStats.pass
    ++ " |\n| Fail | " ++ natToString complianceStats.fail
    ++ " |\n| Warning | " ++ natToString complianceStats.warning
    ++ " |\n| **Score** | **" ++ intToString (complianceScore complianceStats)
    ++ "%** |\n\n## Detailed Vulnerabilities\n\n"
    ++ mdDetailedVulns vulnerabilities
    ++ "\n\n## SBOM (Software Bill of Materials)\n\n| Component | Version | License |\n|-----------|---------|---------|\n"
    ++ mdSbomRows sbomComponents
    ++ "\n\n---\n*Report generated by JLR ECU Vulnerability Scanner*\n"

/-- Response body of the generate-report handler: either the structured
report (serialized as pretty-printed JSON) or the markdown text. -/
inductive ReportBody where
  | jsonDoc (r : Report)
  | markdownDoc (text : String)
deriving Repr, DecidableEq

/-- Result of the generate-report handler. -/
inductive ReportResult where
  | badRequest
  | notFound
  | ok (body : ReportBody) (filename : String) (contentType : String)
deriving Repr, DecidableEq

/-- Transcription of the `useGenerateReport` client hook's request mapping:
`format: format === 'pdf' ? 'json' : format`. -/
def clientReportFormat (format : String) : String :=
  if format = "pdf" then "json" else format

/-- Transcription of the `generate-report` handler body.  `scanRow` is the
scan lookup result; `vulnRows` are the scan's vulnerability rows before the
store applies its severity ordering (see `fetchVulnerabilities`); the other
row lists are the remaining query results. -/
def generateReportHandler (now nowLocale : String) (scanId format : String)
    (scanRow : Option Scan) (vulnRows : List Vulnerability)
    (complianceResults : List ComplianceResult) (sbomComponents : List SBOMComponent)
    (analysisLogs : List AnalysisLog) : ReportResult :=
  if scanId = "" then .badRequest
  else
    match scanRow with
    | none => .notFound
    | some scan =>
      let vulnerabilities := fetchVulnerabilities vulnRows
      if format = "json" then
        .ok (.jsonDoc (buildReport now scan vulnerabilities complianceResults
            sbomComponents analysisLogs))
          ("scan-report-" ++ scanId ++ ".json") "application/json"
      else
        .ok (.markdownDoc (generateMarkdownReport nowLocale scan vulnerabilities
            complianceResults sbomComponents))
          ("scan-report-" ++ scanId ++ ".md") "text/markdown"

/-! CVE resolver (`fetch-cve` handler from the edge function source). -/

/-- CVSS v3.1 data object of an NVD metric (`cvssData`). -/
structure CvssData31 where
  baseScore : Rat
  baseSeverity : String
deriving Repr, DecidableEq

/-- CVSS v3.1 metric entry (`cve.metrics.cvssMetricV31[..]`). -/
structure CvssMetricV31 where
  cvssData : CvssData31
deriving Repr, DecidableEq

/-- CVSS v2 data object (`cvssData`; v2 keeps its severity outside). -/
structure CvssData2 where
  baseScore : Rat
deriving Repr, DecidableEq

/-- CVSS v2 metric entry (`cve.metrics.cvssMetricV2[..]`; `baseSeverity`
lives on the metric, not inside `cvssData`, exactly as the source reads). -/
structure CvssMetricV2 where
  cvssData : CvssData2
  baseSeverity : String
deriving Repr, DecidableEq

/-- Metrics block of an NVD CVE record; both arrays are nullable. -/
structure CveMetrics where
  cvssMetricV31 : Option (List CvssMetricV31)
  cvssMetricV2 : Option (List CvssMetricV2)
deriving Repr, DecidableEq

/-- Language-tagged description entry (`cve.descriptions[..]`). -/
structure LangString where
  lang : String
  value : String
deriving Repr, DecidableEq

/-- Weakness description entry (`w.description[..]`, carrying a CWE id). -/
structure WeaknessDescEntry where
  value : String
deriving Repr, DecidableEq

/-- Weakness entry (`cve.weaknesses[..]`); its description list is nullable. -/
structure Weakness where
  description : Option (List WeaknessDescEntry)
deriving Repr, DecidableEq

/-- Reference entry of the registry record (`cve.references[..]`), also the
shape of the extracted `reference_links` entries (url, source, tags). -/
structure NvdReference where
  url : String
  source : String
  tags : Option (List String)
deriving Repr, DecidableEq

/-- NVD CVE record (`nvdData.vulnerabilities[0].cve`).  The raw
`configurations` block is passed through verbatim by the handler and is
modelled as an opaque list of nodes. -/
structure CveRecord where
  metrics : Option CveMetrics
  descriptions : Option (List LangString)
  weaknesses : Option (List Weakness)
  references : Option (List NvdReference)
  published : Option String
  lastModified : Option String
  configurations : Option (List String)
deriving Repr, DecidableEq

/-- Cache row of the `cve_cache` table, which is also the shape of the
`cveData` object the handler builds, upserts and returns. -/
structure CveCacheEntry where
  cve_id : String
  description : String
  cvss_score : Option Rat
  severity : Option String
  published_date : Option String
  modified_date : Option String
  reference_links : List NvdReference
  cwe_ids : List String
  affected_products : List String
  fetched_at : String
deriving Repr, DecidableEq

/-- Transcription of the extraction part of the `fetch-cve` handler (source
lines building `cvssScore`, `severity`, `cweIds`, `referenceLinks` and the
`cveData` object).  `fetchedAt` stands for `new Date().toISOString()`.
The `cweIds` chain models `flatMap` over a nullable inner `map` faithfully:
a weakness with an absent description list contributes the single element
`undefined` (here `none`), which `filter(Boolean)` then drops along with
empty-string values. -/
def extractCveData (cveId : String) (fetchedAt : String) (cve : CveRecord) : CveCacheEntry :=
  let scoreSeverity : Option Rat × Option String :=
    match cve.metrics with
    | some m =>
      match m.cvssMetricV31 with
      | some (v :: _) => (some v.cvssData.baseScore, some v.cvssData.baseSeverity)
      | _ =>
        match m.cvssMetricV2 with
        | some (v :: _) => (some v.cvssData.baseScore, some v.baseSeverity)
        | _ => (none, none)
    | none => (none, none)
  let cweIds : List String :=
    ((cve.weaknesses.getD []).flatMap fun w =>
      match w.description with
      | some ds => ds.map fun d => some d.value
      | none => [none]).filterMap fun o =>
        match o with
        | some v => if v = "" then none else some v
        | none => none
  { cve_id := cveId
    description :=
      match (cve.descriptions.getD []).find? fun d => d.lang = "en" with
      | some d => d.value
      | none => ""
    cvss_score := scoreSeverity.1
    severity := scoreSeverity.2.map jsToLower
    published_date := cve.published
    modified_date := cve.lastModified
    reference_links := (cve.references.getD []).map fun r => ⟨r.url, r.source, r.tags⟩
    cwe_ids := cweIds
    affected_products := cve.configurations.getD []
    fetched_at := fetchedAt }

/-- Parsed body of a successful NVD response
(`nvdData.vulnerabilities[..].cve`; the array is nullable). -/
structure NvdCveItem where
  cve : CveRecord
deriving Repr, DecidableEq

/-- Parsed JSON body of a successful NVD response. -/
structure NvdResponseBody where
  vulnerabilities : Option (List NvdCveItem)
deriving Repr, DecidableEq

/-- Outcome of the single upstream fetch of one invocation: a success
response (`nvdResponse.ok`) with its parsed body, or a non-success response
(`!nvdResponse.ok`, any HTTP error status). -/
inductive UpstreamResult where
  | success (body : NvdResponseBody)
  | failure
deriving Repr, DecidableEq

/-- Response body of the fetch-cve handler: a cache-entry-shaped JSON object
or an error object. -/
inductive FetchCveBody where
  | entry (e : CveCacheEntry)
  | errorMsg (msg : String)
deriving Repr, DecidableEq

/-- Observable outcome of one fetch-cve invocation: HTTP status, response
body, the cache upsert performed (if any) and the number of upstream fetch
attempts made. -/
structure FetchCveOutcome where
  status : Nat
  body : FetchCveBody
  upsert : Option CveCacheEntry
  upstreamCalls : Nat
deriving Repr, DecidableEq

/-- TTL constant of the cache check: `24 * 60 * 60 * 1000` milliseconds. -/
def oneDayMs : Int := 24 * 60 * 60 * 1000

/-- Branch of the handler after the cache check decided to go upstream
(from the `Fetch from NVD API` comment onwards). -/
def fetchFromNvd (cveId : String) (cached : Option CveCacheEntry) (nowIso : String)
    (upstream : UpstreamResult) : FetchCveOutcome :=
  match upstream with
  | .failure =>
    match cached with
    | some c => ⟨200, .entry c, none, 1⟩
    | none => ⟨502, .errorMsg "Failed to fetch from NVD", none, 1⟩
  | .success body =>
    match body.vulnerabilities with
    | some (item :: _) =>
      let cveData := extractCveData cveId nowIso item.cve
      ⟨200, .entry cveData, some cveData, 1⟩
    | _ => ⟨404, .errorMsg "CVE not found", none, 1⟩

/-- Transcription of the `fetch-cve` handler body.  `cached` is the cache
lookup result; `nowMs` stands for `Date.now()`; `parseDate` abstracts
`new Date(s).getTime()` on the stored `fetched_at` text; `nowIso` stands for
`new Date().toISOString()`; `upstream` is the outcome the single NVD fetch
would have (it is consumed only on the paths that perform the fetch, counted
by `upstreamCalls`). -/
def fetchCveHandler (cveId : String) (cached : Option CveCacheEntry) (nowMs : Int)
    (parseDate : String → Int) (nowIso : String) (upstream : UpstreamResult) :
    FetchCveOutcome :=
  if cveId = "" then ⟨400, .errorMsg "CVE ID required", none, 0⟩
  else
    match cached with
    | some c =>
      if nowMs - parseDate c.fetched_at < oneDayMs then ⟨200, .entry c, none, 0⟩
      else fetchFromNvd cveId (some c) nowIso upstream
    | none => fetchFromNvd cveId none nowIso upstream

/-! Ordering instances for the severity sort relation. -/

instance : IsTotal Vulnerability fun a b => severityOrd a.severity ≤ severityOrd b.severity :=
  ⟨fun _ _ => Nat.le_total _ _⟩

instance : IsTrans Vulnerability fun a b => severityOrd a.severity ≤ severityOrd b.severity :=
  ⟨fun _ _ _ => Nat.le_trans⟩

/-! Concrete fixtures used by witnesses and counterexamples. -/

/-- Concrete cache entry used by the resolver witnesses. -/
def cacheEntryW : CveCacheEntry :=
  { cve_id := "CVE-2021-44228"
    description := "Log4j JNDI lookup"
    cvss_score := none
    severity := some "critical"
    published_date := none
    modified_date := none
    reference_links := []
    cwe_ids := ["CWE-502"]
    affected_products := []
    fetched_at := "2024-01-01T00:00:00Z" }

/-- Concrete registry record with a duplicated CWE id in its weaknesses. -/
def cveRecordDup : CveRecord :=
  { metrics := none
    descriptions := some [⟨"en", "double free"⟩]
    weaknesses := some [⟨some [⟨"CWE-79"⟩, ⟨"CWE-79"⟩]⟩]
    references := none
    published := none
    lastModified := none
    configurations := none }

/-- Concrete registry record exercising the v3.1-metric extraction path. -/
def cveRecordV31 : CveRecord :=
  { metrics := some ⟨some [⟨⟨(98 : Rat) / 10, "CRITICAL"⟩⟩], none⟩
    descriptions := some [⟨"es", "otro"⟩, ⟨"en", "remote code execution"⟩]
    weaknesses := some [⟨some [⟨"CWE-502"⟩]⟩, ⟨none⟩]
    references := some [⟨"https://example.org/a", "nvd@nist.gov", some ["Patch"]⟩]
    published := some "2021-12-10"
    lastModified := some "2023-11-07"
    configurations := none }

/-- Concrete compliance rows (3 pass, 1 fail) used by the report witnesses. -/
def complianceRowsW : List ComplianceResult :=
  [⟨"MISRA C", "R1", none, .pass, none⟩,
   ⟨"MISRA C", "R2", none, .pass, none⟩,
   ⟨"ISO 21434", "R3", none, .pass, none⟩,
   ⟨"ISO 21434", "R4", none, .fail, none⟩]

/-- 23 passing and 17 failing compliance rows: the ratio 23/40 rounds
differently in binary64 than over exact rationals. -/
def complianceRows2317 : List ComplianceResult :=
  List.replicate 23 (⟨"MISRA C", "R", none, .pass, none⟩ : ComplianceResult) ++
    List.replicate 17 (⟨"MISRA C", "R", none, .fail, none⟩ : ComplianceResult)

/-- Concrete scan row used by several witnesses. -/
def scanW : Scan :=
  { id := "scan-1"
    ecu_name := "BodyControl"
    ecu_type := "Body"
    version := some "2.1"
    manufacturer := some "Acme"
    architecture := some "ARM"
    file_name := "bc.bin"
    file_hash := none
    file_size := 4096
    status := "completed"
    created_at := "2024-06-01T00:00:00Z"
    completed_at := none
    risk_score := some 42
    executive_summary := none }

/-- Concrete scan whose architecture text contains an ampersand. -/
def scanAmp : Scan :=
  { id := "tag-1"
    ecu_name := "ECU"
    ecu_type := "Engine"
    version := some "1.0"
    manufacturer := some "Acme"
    architecture := some "A&B"
    file_name := "f.bin"
    file_hash := none
    file_size := 1
    status := "completed"
    created_at := "2024"
    completed_at := none
    risk_score := none
    executive_summary := none }

/-- Concrete component with the spec's five-special-character name. -/
def compSpecial : SBOMComponent :=
  { component_name := "A&B<C>\"D'E"
    version := some "3.2"
    license := some "MIT"
    source_file := some "lib.c"
    vulnerabilities := some ["CVE-2020-0001"] }

/-- Concrete vulnerability rows (one low, one critical) for the C4 witness. -/
def vulnRowsW : List Vulnerability :=
  [{ id := "v1", cve_id := none, cwe_id := none, severity := .low, cvss_score := none
     title := "Weak RNG", description := none, affected_component := none
     affected_function := none, code_snippet := none, line_number := none
     detection_method := none, status := "new", remediation := none
     attack_vector := none, impact := none },
   { id := "v2", cve_id := some "CVE-2021-44228", cwe_id := none, severity := .critical
     cvss_score := none, title := "RCE", description := none, affected_component := none
     affected_function := none, code_snippet := none, line_number := none
     detection_method := none, status := "new", remediation := none
     attack_vector := none, impact := none }]

/-! Infrastructure lemmas: decimal rendering, string data, substrings. -/

theorem valRev_digitsRev (n : Nat) : valRev (digitsRev n) = n := by
  induction n using Nat.strong_induction_on with
  | _ n ih =>
    rw [digitsRev]
    split
    · simp [valRev]
    · rw [valRev, ih (n / 10) (by omega)]
      omega

theorem digitsRev_injective : Function.Injective digitsRev := by
  intro a b h
  have := valRev_digitsRev a
  rw [h, valRev_digitsRev] at this
  omega

theorem digitsRev_lt_ten (n : Nat) : ∀ d ∈ digitsRev n, d < 10 := by
  induction n using Nat.strong_induction_on with
  | _ n ih =>
    rw [digitsRev]
    split
    · intro d hd
      simp at hd
      omega
    · intro d hd
      rcases List.mem_cons.mp hd with h1 | h2
      · omega
      · exact ih (n / 10) (by omega) d h2

theorem map_digitChar_injOn : ∀ l₁ l₂ : List Nat, (∀ d ∈ l₁, d < 10) →
    (∀ d ∈ l₂, d < 10) → l₁.map Nat.digitChar = l₂.map Nat.digitChar → l₁ = l₂ := by
  intro l₁
  induction l₁ with
  | nil =>
    intro l₂ _ _ h
    cases l₂ with
    | nil => rfl
    | cons b bs => simp at h
  | cons a as ih =>
    intro l₂ h1 h2 h
    cases l₂ with
    | nil => simp at h
    | cons b bs =>
      simp only [List.map_cons, List.cons.injEq] at h
      have ha : a < 10 := h1 a (by simp)
      have hb : b < 10 := h2 b (by simp)
      have hdig : ∀ x, x < 10 → ∀ y, y < 10 → Nat.digitChar x = Nat.digitChar y → x = y := by
        decide
      have : a = b := hdig a ha b hb h.1
      have : as = bs := ih bs (fun d hd => h1 d (by simp [hd]))
        (fun d hd => h2 d (by simp [hd])) h.2
      simp_all

theorem natToString_injective : Function.Injective natToString := by
  intro a b h
  have hdata : ((digitsRev a).reverse.map Nat.digitChar) =
      ((digitsRev b).reverse.map Nat.digitChar) := congrArg String.data h
  have hrev : (digitsRev a).reverse = (digitsRev b).reverse :=
    map_digitChar_injOn _ _ (fun d hd => digitsRev_lt_ten a d (List.mem_reverse.mp hd))
      (fun d hd => digitsRev_lt_ten b d (List.mem_reverse.mp hd)) hdata
  exact digitsRev_injective (List.reverse_injective hrev)

theorem string_eq_of_data_eq {s t : String} (h : s.data = t.data) : s = t := by
  cases s
  cases t
  exact congrArg String.mk h

theorem strData_append (a b : String) : (a ++ b).data = a.data ++ b.data :=
  String.data_append a b

theorem infix_append_left (a : String) {x : List Char} {b : String}
    (h : x <:+: b.data) : x <:+: (a ++ b).data := by
  obtain ⟨u, v, huv⟩ := h
  exact ⟨a.data ++ u, v, by rw [strData_append, ← huv]; simp⟩

theorem infix_append_right {x : List Char} {a : String} (b : String)
    (h : x <:+: a.data) : x <:+: (a ++ b).data := by
  obtain ⟨u, v, huv⟩ := h
  exact ⟨u, v ++ b.data, by rw [strData_append, ← huv]; simp⟩

theorem infix_self_right (a b : String) : b.data <:+: (a ++ b).data :=
  infix_append_left a (List.infix_refl _)

theorem infix_self_left (a b : String) : a.data <:+: (a ++ b).data :=
  infix_append_right b (List.infix_refl _)

theorem joinSep_infix_of_mem (sep : String) {s : String} : ∀ {l : List String},
    s ∈ l → s.data <:+: (joinSep sep l).data := by
  intro l
  induction l with
  | nil => intro h; cases h
  | cons x xs ih =>
    intro h
    rcases List.mem_cons.mp h with h1 | h2
    · subst h1
      cases xs with
      | nil => exact List.infix_refl _
      | cons y ys =>
        show s.data <:+: (s ++ sep ++ joinSep sep (y :: ys)).data
        exact infix_append_right _ (infix_self_left _ _)
    · cases xs with
      | nil => cases h2
      | cons y ys =>
        show s.data <:+: (x ++ sep ++ joinSep sep (y :: ys)).data
        exact infix_append_left _ (ih h2)

theorem joinSep_infix_of_mem_trans (sep : String) {x : List Char} {s : String}
    {l : List String} (hs : s ∈ l) (hx : x <:+: s.data) :
    x <:+: (joinSep sep l).data :=
  hx.trans (joinSep_infix_of_mem sep hs)

theorem map_mapIdx_eq_range_map {α β γ : Type} (l : List α) (f : Nat → α → β)
    (g : β → γ) (gi : Nat → γ) (h : ∀ i (hi : i < l.length), g (f i (l.get ⟨i, hi⟩)) = gi i) :
    (l.mapIdx f).map g = (List.range l.length).map gi := by
  apply List.ext_getElem
  · simp [List.length_mapIdx]
  · intro i h1 h2
    have h3 : i < l.length := by simpa [List.length_mapIdx] using h1
    have h4 := List.get_mapIdx l f i h3
    rw [List.get_eq_getElem, List.get_eq_getElem] at h4
    simp only [List.getElem_map, List.getElem_range]
    rw [h4]
    have h5 := h i h3
    rw [List.get_eq_getElem] at h5
    exact h5

/-! Claims about the CVE resolver. -/

theorem fetchFromNvd_upstreamCalls (cveId : String) (cached : Option CveCacheEntry)
    (nowIso : String) (upstream : UpstreamResult) :
    (fetchFromNvd cveId cached nowIso upstream).upstreamCalls = 1 := by
  cases upstream with
  | failure => cases cached <;> rfl
  | success body =>
    rcases hb : body.vulnerabilities with _ | (_ | ⟨item, rest⟩) <;>
      simp [fetchFromNvd, hb]

/-- C1: a cached entry younger than 24 hours is returned unchanged with no
upstream call; an absent or stale entry causes exactly one upstream fetch
attempt; a non-success upstream response with a stale cached entry returns
that stale entry as a success; a non-success upstream response with no cached
entry fails with status 502. -/
theorem cve_resolver_ttl_and_stale_fallback (cveId : String)
    (cached : Option CveCacheEntry) (nowMs : Int) (parseDate : String → Int)
    (nowIso : String) (upstream : UpstreamResult) (hid : cveId ≠ "") :
    (∀ c, cached = some c → nowMs - parseDate c.fetched_at < oneDayMs →
      fetchCveHandler cveId cached nowMs parseDate nowIso upstream =
        ⟨200, .entry c, none, 0⟩) ∧
    ((cached = none ∨ ∃ c, cached = some c ∧ oneDayMs ≤ nowMs - parseDate c.fetched_at) →
      (fetchCveHandler cveId cached nowMs parseDate nowIso upstream).upstreamCalls = 1) ∧
    (∀ c, cached = some c → oneDayMs ≤ nowMs - parseDate c.fetched_at →
      upstream = .failure →
      fetchCveHandler cveId cached nowMs parseDate nowIso upstream =
        ⟨200, .entry c, none, 1⟩) ∧
    (cached = none → upstream = .failure →
      (fetchCveHandler cveId cached nowMs parseDate nowIso upstream).status = 502) := by
  refine ⟨?_, ?_, ?_, ?_⟩
  · intro c hc hfresh
    subst hc
    simp [fetchCveHandler, hid, hfresh]
  · intro h
    rcases h with hnone | ⟨c, hc, hstale⟩
    · subst hnone
      simp [fetchCveHandler, hid, fetchFromNvd_upstreamCalls]
    · subst hc
      simp [fetchCveHandler, hid, not_lt.mpr hstale, fetchFromNvd_upstreamCalls]
  · intro c hc hstale hup
    subst hc
    subst hup
    simp [fetchCveHandler, hid, not_lt.mpr hstale, fetchFromNvd]
  · intro hc hup
    subst hc
    subst hup
    simp [fetchCveHandler, hid, fetchFromNvd]

theorem cve_resolver_ttl_witness :
    fetchCveHandler "CVE-2021-44228" (some cacheEntryW) 1000 (fun _ => 0) "now"
        .failure = ⟨200, .entry cacheEntryW, none, 0⟩ :=
  (cve_resolver_ttl_and_stale_fallback "CVE-2021-44228" (some cacheEntryW) 1000
    (fun _ => 0) "now" .failure (by decide)).1 cacheEntryW rfl (by norm_num [oneDayMs])

/-- C8: a successful upstream response with no matching record yields the 404
not-found failure and performs no cache upsert; more generally an upsert is
performed only when a record was successfully extracted from a successful
response. -/
theorem cve_resolver_not_found_no_upsert (cveId : String)
    (cached : Option CveCacheEntry) (nowMs : Int) (parseDate : String → Int)
    (nowIso : String) (hid : cveId ≠ "") :
    (∀ body : NvdResponseBody,
      (∀ c, cached = some c → oneDayMs ≤ nowMs - parseDate c.fetched_at) →
      (body.vulnerabilities = none ∨ body.vulnerabilities = some []) →
      fetchCveHandler cveId cached nowMs parseDate nowIso (.success body) =
        ⟨404, .errorMsg "CVE not found", none, 1⟩) ∧
    (∀ upstream e,
      (fetchCveHandler cveId cached nowMs parseDate nowIso upstream).upsert = some e →
      ∃ body item rest, upstream = .success body ∧
        body.vulnerabilities = some (item :: rest) ∧
        e = extractCveData cveId nowIso item.cve) := by
  constructor
  · intro body hstale hempty
    have hmatch : fetchFromNvd cveId cached nowIso (.success body) =
        ⟨404, .errorMsg "CVE not found", none, 1⟩ := by
      rcases hempty with h | h <;> simp [fetchFromNvd, h]
    cases cached with
    | none => simp [fetchCveHandler, hid, hmatch]
    | some c =>
      simp [fetchCveHandler, hid, not_lt.mpr (hstale c rfl), hmatch]
  · intro upstream e h
    have hnvd : ∀ cd : Option CveCacheEntry,
        (fetchFromNvd cveId cd nowIso upstream).upsert = some e →
        ∃ body item rest, upstream = .success body ∧
          body.vulnerabilities = some (item :: rest) ∧
          e = extractCveData cveId nowIso item.cve := by
      intro cd hcd
      cases upstream with
      | failure => cases cd <;> simp [fetchFromNvd] at hcd
      | success body =>
        rcases hb : body.vulnerabilities with _ | (_ | ⟨item, rest⟩) <;>
          simp [fetchFromNvd, hb] at hcd
        exact ⟨body, item, rest, rfl, hb, hcd.symm⟩
    rw [fetchCveHandler.eq_def] at h
    rw [if_neg hid] at h
    rcases cached with _ | c
    · exact hnvd none h
    · by_cases hfresh : nowMs - parseDate c.fetched_at < oneDayMs
      · simp [hfresh] at h
      · simp only [hfresh, if_false] at h
        exact hnvd (some c) h

theorem cve_resolver_not_found_witness :
    fetchCveHandler "CVE-2099-0001" none 0 (fun _ => 0) "now"
        (.success ⟨none⟩) = ⟨404, .errorMsg "CVE not found", none, 1⟩ :=
  (cve_resolver_not_found_no_upsert "CVE-2099-0001" none 0 (fun _ => 0) "now"
    (by decide)).1 ⟨none⟩ (fun c hc => by cases hc) (Or.inl rfl)

theorem filterOpt_map_values (ds : List WeaknessDescEntry) :
    ((ds.map fun d => some d.value).filterMap fun o =>
      match o with
      | some v => if v = "" then none else some v
      | none => none) = (ds.map fun d => d.value).filter fun v => v != "" := by
  induction ds with
  | nil => rfl
  | cons d ds ih =>
    simp only [List.map_cons, List.filterMap_cons, List.filter_cons]
    by_cases h : d.value = ""
    · simp [h, ih]
    · simp [h, ih]

theorem cweIds_flatten_eq (ws : List Weakness) :
    ((ws.flatMap fun w =>
      match w.description with
      | some ds => ds.map fun d => some d.value
      | none => [(none : Option String)]).filterMap fun o =>
        match o with
        | some v => if v = "" then none else some v
        | none => none) =
    (ws.flatMap fun w => (w.description.getD []).map fun d => d.value).filter
      fun v => v != "" := by
  induction ws with
  | nil => rfl
  | cons w ws ih =>
    simp only [List.flatMap_cons, List.filterMap_append, List.filter_append, ih]
    congr 1
    cases hw : w.description with
    | none => simp
    | some ds => simpa using filterOpt_map_values ds

/-- C7 (amended): extraction prefers the v3.1 metric over v2 and yields null
scores when neither is present, lower-casing the severity text; the
description is the first English-language entry or the empty string; the CWE
id list flattens all weakness description values dropping absent and empty
entries but KEEPING duplicates (the source has no deduplication); reference
entries (url, source, tags) are flattened from the registry reference list. -/
theorem cve_extraction_fields (cveId fetchedAt : String) (cve : CveRecord) :
    (∀ m v rest, cve.metrics = some m → m.cvssMetricV31 = some (v :: rest) →
      (extractCveData cveId fetchedAt cve).cvss_score = some v.cvssData.baseScore ∧
      (extractCveData cveId fetchedAt cve).severity =
        some (jsToLower v.cvssData.baseSeverity)) ∧
    (∀ m v rest, cve.metrics = some m →
      (m.cvssMetricV31 = none ∨ m.cvssMetricV31 = some []) →
      m.cvssMetricV2 = some (v :: rest) →
      (extractCveData cveId fetchedAt cve).cvss_score = some v.cvssData.baseScore ∧
      (extractCveData cveId fetchedAt cve).severity = some (jsToLower v.baseSeverity)) ∧
    ((cve.metrics = none ∨ ∃ m, cve.metrics = some m ∧
        (m.cvssMetricV31 = none ∨ m.cvssMetricV31 = some []) ∧
        (m.cvssMetricV2 = none ∨ m.cvssMetricV2 = some [])) →
      (extractCveData cveId fetchedAt cve).cvss_score = none ∧
      (extractCveData cveId fetchedAt cve).severity = none) ∧
    (extractCveData cveId fetchedAt cve).description =
      (match (cve.descriptions.getD []).find? fun d => d.lang = "en" with
       | some d => d.value
       | none => "") ∧
    (extractCveData cveId fetchedAt cve).cwe_ids =
      ((cve.weaknesses.getD []).flatMap fun w =>
        (w.description.getD []).map fun d => d.value).filter (fun v => v != "") ∧
    (extractCveData cveId fetchedAt cve).reference_links =
      (cve.references.getD []).map fun r => ⟨r.url, r.source, r.tags⟩ := by
  refine ⟨?_, ?_, ?_, ?_, ?_, ?_⟩
  · intro m v rest hm h31
    constructor <;> simp [extractCveData, hm, h31]
  · intro m v rest hm h31 h2
    rcases h31 with h31 | h31 <;> constructor <;> simp [extractCveData, hm, h31, h2]
  · intro h
    rcases h with hm | ⟨m, hm, h31 | h31, h2 | h2⟩
    · constructor <;> simp [extractCveData, hm]
    all_goals constructor <;> simp [extractCveData, hm, h31, h2]
  · simp [extractCveData]
  · simp only [extractCveData]
    exact cweIds_flatten_eq _
  · simp [extractCveData]

/-- C7 counterexample: the source keeps duplicate CWE ids, so the extracted
CWE list is not duplicate-free as the claim states. -/
theorem cve_extraction_keeps_duplicate_cwes :
    (extractCveData "CVE-2024-0002" "t" cveRecordDup).cwe_ids = ["CWE-79", "CWE-79"] ∧
    ¬ (extractCveData "CVE-2024-0002" "t" cveRecordDup).cwe_ids.Nodup := by
  have h : (extractCveData "CVE-2024-0002" "t" cveRecordDup).cwe_ids =
      ["CWE-79", "CWE-79"] := by decide
  refine ⟨h, ?_⟩
  rw [h]
  decide

theorem cve_extraction_fields_witness :
    (extractCveData "CVE-2021-44228" "now" cveRecordV31).cvss_score =
      some ((98 : Rat) / 10) ∧
    (extractCveData "CVE-2021-44228" "now" cveRecordV31).severity = some "critical" :=
  have h := (cve_extraction_fields "CVE-2021-44228" "now" cveRecordV31).1
    ⟨some [⟨⟨(98 : Rat) / 10, "CRITICAL"⟩⟩], none⟩ ⟨⟨(98 : Rat) / 10, "CRITICAL"⟩⟩ []
    rfl rfl
  ⟨h.1, by rw [h.2]; rfl⟩

/-! Claims about the report generator. -/

theorem log2_bounds (n : Nat) (h : 1 ≤ n) :
    2 ^ Nat.log2 n ≤ n ∧ n < 2 ^ (Nat.log2 n + 1) := by
  rw [Nat.log2_eq_log_two]
  exact ⟨Nat.pow_log_le_self 2 (by omega), Nat.lt_pow_succ_log_self (by norm_num) n⟩

theorem log2_eq_of {n k : Nat} (h1 : 2 ^ k ≤ n) (h2 : n < 2 ^ (k + 1)) :
    Nat.log2 n = k := by
  rw [Nat.log2_eq_log_two]
  exact Nat.log_eq_of_pow_le_of_lt_pow h1 h2

theorem q_pow_nat (k : Nat) : (2 : ℚ) ^ (k : ℤ) = ((2 ^ k : ℕ) : ℚ) := by
  rw [zpow_natCast]
  push_cast
  ring

theorem q_pow_pos (e : Int) : (0 : ℚ) < (2 : ℚ) ^ e := by positivity

theorem q_pow_small : (2 : ℚ) ^ (-53 : ℤ) ≤ 1 / 1000 := by
  rw [show (-53 : ℤ) = -((53 : ℕ) : ℤ) by rfl, zpow_neg, q_pow_nat, inv_eq_one_div]
  rw [div_le_div_iff₀ (by positivity) (by norm_num)]
  norm_num

theorem q_pow_small2 : (2 : ℚ) ^ (-1075 : ℤ) ≤ 1 / 1000 := by
  rw [show (-1075 : ℤ) = -((1075 : ℕ) : ℤ) by rfl, zpow_neg, q_pow_nat, inv_eq_one_div]
  rw [div_le_div_iff₀ (by positivity) (by norm_num)]
  norm_num

theorem pow2LeRat_iff {e : Int} {num den : Nat} (hd : 1 ≤ den) :
    pow2LeRat e num den ↔ (2 : ℚ) ^ e ≤ (num : ℚ) / den := by
  have hd0 : (0 : ℚ) < (den : ℚ) := by exact_mod_cast hd
  by_cases he : 0 ≤ e
  · obtain ⟨k, rfl⟩ : ∃ k : ℕ, e = (k : ℤ) := ⟨e.toNat, (Int.toNat_of_nonneg he).symm⟩
    rw [pow2LeRat, if_pos he, Int.toNat_natCast, le_div_iff₀ hd0, zpow_natCast]
    constructor
    · intro h
      have h2 : ((2 ^ k * den : ℕ) : ℚ) ≤ ((num : ℕ) : ℚ) := by
        exact_mod_cast (by rw [Nat.mul_comm] at h; exact h : 2 ^ k * den ≤ num)
      push_cast at h2
      linarith
    · intro h
      have h2 : ((2 ^ k * den : ℕ) : ℚ) ≤ ((num : ℕ) : ℚ) := by push_cast; linarith
      have h3 : 2 ^ k * den ≤ num := by exact_mod_cast h2
      rw [Nat.mul_comm]
      exact h3
  · obtain ⟨k, rfl⟩ : ∃ k : ℕ, e = -(k : ℤ) := ⟨(-e).toNat, by omega⟩
    rw [pow2LeRat, if_neg he, zpow_neg, zpow_natCast, inv_eq_one_div]
    rw [div_le_div_iff₀ (by positivity) hd0]
    rw [show (-(-(k : ℤ))).toNat = k by omega]
    constructor
    · intro h
      have h2 : ((den : ℕ) : ℚ) ≤ ((num * 2 ^ k : ℕ) : ℚ) := by exact_mod_cast h
      push_cast at h2
      linarith
    · intro h
      have h2 : ((den : ℕ) : ℚ) ≤ ((num * 2 ^ k : ℕ) : ℚ) := by push_cast; linarith
      exact_mod_cast h2

theorem ratLog2_bounds {num den : Nat} (hn : 1 ≤ num) (hd : 1 ≤ den) :
    (2 : ℚ) ^ ratLog2 num den ≤ (num : ℚ) / den ∧
    (num : ℚ) / den < (2 : ℚ) ^ (ratLog2 num den + 1) := by
  have hd0 : (0 : ℚ) < (den : ℚ) := by exact_mod_cast hd
  obtain ⟨hn1, hn2⟩ := log2_bounds num hn
  obtain ⟨hdl1, hdl2⟩ := log2_bounds den hd
  set a := Nat.log2 num with ha
  set b := Nat.log2 den with hb
  have hn2q : (num : ℚ) < (2 : ℚ) ^ ((a : ℤ) + 1) := by
    rw [show (a : ℤ) + 1 = ((a + 1 : ℕ) : ℤ) by push_cast; ring, q_pow_nat]
    exact_mod_cast hn2
  have hn1q : (2 : ℚ) ^ (a : ℤ) ≤ (num : ℚ) := by
    rw [q_pow_nat]
    exact_mod_cast hn1
  have hd1q : (2 : ℚ) ^ (b : ℤ) ≤ (den : ℚ) := by
    rw [q_pow_nat]
    exact_mod_cast hdl1
  have hd2q : (den : ℚ) < (2 : ℚ) ^ ((b : ℤ) + 1) := by
    rw [show (b : ℤ) + 1 = ((b + 1 : ℕ) : ℤ) by push_cast; ring, q_pow_nat]
    exact_mod_cast hdl2
  have key1 : (num : ℚ) / den < (2 : ℚ) ^ ((a : ℤ) - b + 1) := by
    rw [div_lt_iff₀ hd0]
    calc (num : ℚ) < (2 : ℚ) ^ ((a : ℤ) + 1) := hn2q
      _ = (2 : ℚ) ^ ((a : ℤ) - b + 1) * (2 : ℚ) ^ (b : ℤ) := by
          rw [← zpow_add₀ (by norm_num : (2:ℚ) ≠ 0)]
          congr 1
          ring
      _ ≤ (2 : ℚ) ^ ((a : ℤ) - b + 1) * den := by
          have := q_pow_pos ((a : ℤ) - b + 1)
          nlinarith
  have key2 : (2 : ℚ) ^ ((a : ℤ) - b - 1) < (num : ℚ) / den := by
    rw [lt_div_iff₀ hd0]
    calc (2 : ℚ) ^ ((a : ℤ) - b - 1) * den
        < (2 : ℚ) ^ ((a : ℤ) - b - 1) * (2 : ℚ) ^ ((b : ℤ) + 1) := by
          have := q_pow_pos ((a : ℤ) - b - 1)
          nlinarith
      _ = (2 : ℚ) ^ (a : ℤ) := by
          rw [← zpow_add₀ (by norm_num : (2:ℚ) ≠ 0)]
          congr 1
          ring
      _ ≤ (num : ℚ) := hn1q
  simp only [ratLog2]
  rw [← ha, ← hb]
  split
  · rename_i hp
    exact ⟨(pow2LeRat_iff hd).mp hp, key1⟩
  · rename_i hp
    have hnotle := (not_iff_not.mpr (pow2LeRat_iff hd)).mp hp
    refine ⟨le_of_lt key2, ?_⟩
    rw [show (a : ℤ) - b - 1 + 1 = (a : ℤ) - b by ring]
    exact not_le.mp hnotle

theorem rne_bounds (num den : Nat) (hd : 1 ≤ den) :
    (num : ℚ) / den - 1 / 2 ≤ (rne num den : ℚ) ∧
    (rne num den : ℚ) ≤ (num : ℚ) / den + 1 / 2 := by
  have hd0 : (0 : ℚ) < (den : ℚ) := by exact_mod_cast hd
  have hsum : (den : ℚ) * ((num / den : ℕ) : ℚ) + ((num % den : ℕ) : ℚ) = num := by
    exact_mod_cast congrArg (Nat.cast (R := ℚ)) (Nat.div_add_mod num den)
  have hq : (num : ℚ) / den =
      ((num / den : ℕ) : ℚ) + ((num % den : ℕ) : ℚ) / den := by
    field_simp
    linarith
  have hr0 : (0 : ℚ) ≤ ((num % den : ℕ) : ℚ) / den := by positivity
  have hrlt : ((num % den : ℕ) : ℚ) / den < 1 := by
    rw [div_lt_one hd0]
    exact_mod_cast Nat.mod_lt _ (by omega)
  simp only [rne]
  split
  · rename_i hlt
    have hhalf : ((num % den : ℕ) : ℚ) / den ≤ 1 / 2 := by
      rw [div_le_div_iff₀ hd0 (by norm_num)]
      exact_mod_cast (by omega : (num % den) * 2 ≤ 1 * den)
    constructor <;> rw [hq] <;> linarith
  · rename_i h1
    split
    · rename_i h2
      have hhalf : 1 / 2 ≤ ((num % den : ℕ) : ℚ) / den := by
        rw [div_le_div_iff₀ (by norm_num) hd0]
        exact_mod_cast (by omega : 1 * den ≤ (num % den) * 2)
      constructor <;> rw [hq] <;> push_cast <;> linarith
    · rename_i h2
      have htie : ((num % den : ℕ) : ℚ) / den = 1 / 2 := by
        rw [div_eq_div_iff (ne_of_gt hd0) (by norm_num : (2:ℚ) ≠ 0)]
        exact_mod_cast (by omega : (num % den) * 2 = 1 * den)
      split <;> constructor <;> rw [hq] <;> push_cast <;> linarith

theorem dblVal_nonneg (x : Dbl) : 0 ≤ dblVal x := by
  unfold dblVal
  positivity

theorem mathRoundDbl_eq_floor (x : Dbl) :
    (mathRoundDbl x : ℤ) = ⌊dblVal x + 1 / 2⌋ := by
  unfold mathRoundDbl dblVal
  split
  · rename_i he
    obtain ⟨k, hk⟩ : ∃ j : ℕ, x.e = (j : ℤ) := ⟨x.e.toNat, (Int.toNat_of_nonneg he).symm⟩
    rw [hk, Int.toNat_natCast, zpow_natCast]
    have hcast : (x.m : ℚ) * (2 : ℚ) ^ k = (((x.m * 2 ^ k : ℕ) : ℤ) : ℚ) := by
      push_cast
      ring
    rw [hcast, Int.floor_int_add]
    have hhalf : ⌊(1 : ℚ) / 2⌋ = 0 := by
      apply Int.floor_eq_zero_iff.mpr
      constructor <;> norm_num
    rw [hhalf]
    push_cast
    ring
  · rename_i he
    obtain ⟨k, hk⟩ : ∃ j : ℕ, x.e = -(j : ℤ) := ⟨(-x.e).toNat, by omega⟩
    rw [hk, show (-(-(k : ℤ))).toNat = k by omega, zpow_neg, zpow_natCast]
    have hval : (x.m : ℚ) * ((2 : ℚ) ^ k)⁻¹ + 1 / 2 =
        ((2 * x.m + 2 ^ k : ℕ) : ℚ) / ((2 ^ (k + 1) : ℕ) : ℚ) := by
      have h2 : ((2 : ℚ) ^ k) ≠ 0 := by positivity
      push_cast
      field_simp
      ring
    rw [hval, ← Int.natCast_floor_eq_floor (by positivity), Nat.floor_div_eq_div]

theorem roundB64_le (num den : Nat) (hd : 1 ≤ den) :
    dblVal (roundB64 num den) ≤
      (num : ℚ) / den + (num : ℚ) / den * (2 : ℚ) ^ (-53 : ℤ) + (2 : ℚ) ^ (-1075 : ℤ) := by
  have hd0 : (0 : ℚ) < (den : ℚ) := by exact_mod_cast hd
  by_cases hn : num = 0
  · subst hn
    have : roundB64 0 den = ⟨0, 0⟩ := by simp [roundB64]
    rw [this]
    have hz : dblVal ⟨0, 0⟩ = 0 := by simp [dblVal]
    rw [hz]
    positivity
  · have hn1 : 1 ≤ num := by omega
    obtain ⟨hL1, hL2⟩ := ratLog2_bounds hn1 hd
    simp only [roundB64]
    rw [if_neg (by push_neg; exact ⟨hn, by omega⟩)]
    set L := ratLog2 num den with hLdef
    set ep : Int := max (L - 52) (-1074) with hep
    have hbound : dblVal (if 0 ≤ ep then (⟨rne num (den * 2 ^ ep.toNat), ep⟩ : Dbl)
        else ⟨rne (num * 2 ^ (-ep).toNat) den, ep⟩) ≤ (num : ℚ) / den + (2 : ℚ) ^ (ep - 1) := by
      have hppos : (0 : ℚ) < (2 : ℚ) ^ ep := q_pow_pos ep
      have heq2 : 1 / 2 * (2 : ℚ) ^ ep = (2 : ℚ) ^ (ep - 1) := by
        rw [zpow_sub₀ (by norm_num : (2 : ℚ) ≠ 0), zpow_one]
        ring
      split
      · rename_i hpos
        have h2p : 0 < 2 ^ ep.toNat := Nat.pos_pow_of_pos _ (by norm_num)
        have hD1 : 1 ≤ den * 2 ^ ep.toNat :=
          Nat.one_le_iff_ne_zero.mpr (Nat.mul_ne_zero (by omega) (by omega))
        obtain ⟨_, hrle⟩ := rne_bounds num (den * 2 ^ ep.toNat) hD1
        unfold dblVal
        have hstep : (rne num (den * 2 ^ ep.toNat) : ℚ) * (2 : ℚ) ^ ep ≤
            ((num : ℚ) / ((den * 2 ^ ep.toNat : ℕ) : ℚ) + 1 / 2) * (2 : ℚ) ^ ep :=
          mul_le_mul_of_nonneg_right hrle (le_of_lt hppos)
        have hpow : ((2 ^ ep.toNat : ℕ) : ℚ) = (2 : ℚ) ^ ep := by
          obtain ⟨k, hk⟩ : ∃ j : ℕ, ep = (j : ℤ) := ⟨ep.toNat, (Int.toNat_of_nonneg hpos).symm⟩
          rw [hk, Int.toNat_natCast, zpow_natCast]
          push_cast
          ring
        have hDq : ((den * 2 ^ ep.toNat : ℕ) : ℚ) = (den : ℚ) * (2 : ℚ) ^ ep := by
          push_cast [← hpow]
          ring
        have heq : (num : ℚ) / ((den * 2 ^ ep.toNat : ℕ) : ℚ) * (2 : ℚ) ^ ep = (num : ℚ) / den := by
          rw [hDq]
          field_simp
          ring
        calc (rne num (den * 2 ^ ep.toNat) : ℚ) * (2 : ℚ) ^ ep
            ≤ ((num : ℚ) / ((den * 2 ^ ep.toNat : ℕ) : ℚ) + 1 / 2) * (2 : ℚ) ^ ep := hstep
          _ = (num : ℚ) / ((den * 2 ^ ep.toNat : ℕ) : ℚ) * (2 : ℚ) ^ ep
              + 1 / 2 * (2 : ℚ) ^ ep := by ring
          _ = (num : ℚ) / den + (2 : ℚ) ^ (ep - 1) := by rw [heq, heq2]
      · rename_i hneg
        obtain ⟨_, hrle⟩ := rne_bounds (num * 2 ^ (-ep).toNat) den hd
        unfold dblVal
        have hstep : (rne (num * 2 ^ (-ep).toNat) den : ℚ) * (2 : ℚ) ^ ep ≤
            (((num * 2 ^ (-ep).toNat : ℕ) : ℚ) / den + 1 / 2) * (2 : ℚ) ^ ep :=
          mul_le_mul_of_nonneg_right hrle (le_of_lt hppos)
        obtain ⟨k, hk⟩ : ∃ j : ℕ, ep = -(j : ℤ) := ⟨(-ep).toNat, by omega⟩
        have hKpow : ((2 ^ (-ep).toNat : ℕ) : ℚ) * (2 : ℚ) ^ ep = 1 := by
          rw [hk, show (-(-(k : ℤ))).toNat = k by omega, zpow_neg, zpow_natCast]
          have h2 : ((2 : ℚ) ^ k) ≠ 0 := by positivity
          push_cast
          field_simp
        have hc : ((num * 2 ^ (-ep).toNat : ℕ) : ℚ) = (num : ℚ) * ((2 ^ (-ep).toNat : ℕ) : ℚ) := by
          push_cast
          ring
        have heq : ((num * 2 ^ (-ep).toNat : ℕ) : ℚ) / den * (2 : ℚ) ^ ep = (num : ℚ) / den := by
          rw [hc]
          calc (num : ℚ) * ((2 ^ (-ep).toNat : ℕ) : ℚ) / den * (2 : ℚ) ^ ep
              = (num : ℚ) / den * (((2 ^ (-ep).toNat : ℕ) : ℚ) * (2 : ℚ) ^ ep) := by ring
            _ = (num : ℚ) / den := by rw [hKpow, mul_one]
        calc (rne (num * 2 ^ (-ep).toNat) den : ℚ) * (2 : ℚ) ^ ep
            ≤ (((num * 2 ^ (-ep).toNat : ℕ) : ℚ) / den + 1 / 2) * (2 : ℚ) ^ ep := hstep
          _ = ((num * 2 ^ (-ep).toNat : ℕ) : ℚ) / den * (2 : ℚ) ^ ep
              + 1 / 2 * (2 : ℚ) ^ ep := by ring
          _ = (num : ℚ) / den + (2 : ℚ) ^ (ep - 1) := by rw [heq, heq2]
    have htail : (2 : ℚ) ^ (ep - 1) ≤ (num : ℚ) / den * (2 : ℚ) ^ (-53 : ℤ) + (2 : ℚ) ^ (-1075 : ℤ) := by
      rcases max_cases (L - 52) (-1074 : ℤ) with ⟨hmax, _⟩ | ⟨hmax, _⟩
      · rw [hep, hmax, show L - 52 - 1 = L + (-53 : ℤ) by ring,
          zpow_add₀ (by norm_num : (2 : ℚ) ≠ 0)]
        have h1 : (2 : ℚ) ^ L * (2 : ℚ) ^ (-53 : ℤ) ≤ (num : ℚ) / den * (2 : ℚ) ^ (-53 : ℤ) :=
          mul_le_mul_of_nonneg_right hL1 (le_of_lt (q_pow_pos _))
        have h2 : (0 : ℚ) < (2 : ℚ) ^ (-1075 : ℤ) := q_pow_pos _
        linarith
      · rw [hep, hmax, show (-1074 : ℤ) - 1 = (-1075 : ℤ) by ring]
        have h1 : (0 : ℚ) ≤ (num : ℚ) / den * (2 : ℚ) ^ (-53 : ℤ) := by positivity
        linarith
    linarith

theorem dblMul100_le (x : Dbl) :
    dblVal (dblMul100 x) ≤
      100 * dblVal x + 100 * dblVal x * (2 : ℚ) ^ (-53 : ℤ) + (2 : ℚ) ^ (-1075 : ℤ) := by
  unfold dblMul100
  split
  · rename_i he
    obtain ⟨k, hk⟩ : ∃ j : ℕ, x.e = (j : ℤ) := ⟨x.e.toNat, (Int.toNat_of_nonneg he).symm⟩
    have h := roundB64_le (x.m * 100 * 2 ^ x.e.toNat) 1 (by norm_num)
    have hN : ((x.m * 100 * 2 ^ x.e.toNat : ℕ) : ℚ) / ((1 : ℕ) : ℚ) = 100 * dblVal x := by
      unfold dblVal
      rw [hk, Int.toNat_natCast, zpow_natCast]
      push_cast
      ring
    rw [hN] at h
    exact h
  · rename_i he
    have hK : 1 ≤ 2 ^ (-x.e).toNat := Nat.one_le_two_pow
    have h := roundB64_le (x.m * 100) (2 ^ (-x.e).toNat) hK
    have hN : ((x.m * 100 : ℕ) : ℚ) / ((2 ^ (-x.e).toNat : ℕ) : ℚ) = 100 * dblVal x := by
      unfold dblVal
      obtain ⟨k, hk⟩ : ∃ j : ℕ, x.e = -(j : ℤ) := ⟨(-x.e).toNat, by omega⟩
      rw [hk, show (-(-(k : ℤ))).toNat = k by omega, zpow_neg, zpow_natCast]
      have h2 : ((2 : ℚ) ^ k) ≠ 0 := by positivity
      push_cast
      field_simp
      ring
    rw [hN] at h
    exact h

theorem log2_23 : Nat.log2 23 = 4 := log2_eq_of (by norm_num) (by norm_num)

theorem log2_40 : Nat.log2 40 = 5 := log2_eq_of (by norm_num) (by norm_num)

theorem log2_mid : Nat.log2 517913957147607000 = 58 := log2_eq_of (by norm_num) (by norm_num)

theorem log2_p53 : Nat.log2 9007199254740992 = 53 := log2_eq_of (by norm_num) (by norm_num)

theorem ratLog2_23_40 : ratLog2 23 40 = -1 := by
  unfold ratLog2
  rw [log2_23, log2_40]
  decide

theorem ratLog2_mid : ratLog2 517913957147607000 9007199254740992 = 5 := by
  unfold ratLog2
  rw [log2_mid, log2_p53]
  decide

theorem jsDivPair_23_40 : jsDivPair 23 40 = ⟨5179139571476070, -53⟩ := by
  unfold jsDivPair roundB64
  rw [ratLog2_23_40]
  decide

theorem dblMul100_23_40 : dblMul100 ⟨5179139571476070, -53⟩ = ⟨8092405580431359, -47⟩ := by
  unfold dblMul100
  dsimp only
  rw [if_neg (by decide)]
  rw [show (-(-53 : ℤ)).toNat = 53 from by decide]
  rw [show (5179139571476070 * 100 : ℕ) = 517913957147607000 from by norm_num]
  rw [show (2 ^ 53 : ℕ) = 9007199254740992 from by norm_num]
  unfold roundB64
  rw [ratLog2_mid]
  decide

theorem mathRound_23_40 : mathRoundDbl ⟨8092405580431359, -47⟩ = 57 := by decide

theorem round_2340_58 : round (((23 : ℚ) / (23 + 17 + 0)) * 100) = 58 := by
  rw [round_eq]
  norm_num

theorem score_le_100 (p d : Nat) (hpd : p ≤ d) (hd : 1 ≤ d) :
    (mathRoundDbl (dblMul100 (jsDivPair p d)) : ℤ) ≤ 100 := by
  rw [mathRoundDbl_eq_floor]
  have hd0 : (0 : ℚ) < (d : ℚ) := by exact_mod_cast hd
  have h1 := roundB64_le p d hd
  have hpd1 : (p : ℚ) / d ≤ 1 := by
    rw [div_le_one hd0]
    exact_mod_cast hpd
  have hpd0 : (0 : ℚ) ≤ (p : ℚ) / d := by positivity
  have hsmall : (2 : ℚ) ^ (-53 : ℤ) ≤ 1 / 1000 := q_pow_small
  have hsmall2 : (2 : ℚ) ^ (-1075 : ℤ) ≤ 1 / 1000 := q_pow_small2
  have hs0 : (0 : ℚ) < (2 : ℚ) ^ (-53 : ℤ) := q_pow_pos _
  have hs02 : (0 : ℚ) < (2 : ℚ) ^ (-1075 : ℤ) := q_pow_pos _
  have hx1 : dblVal (jsDivPair p d) ≤ 1 + 1 / 1000 + 1 / 1000 := by
    have hmm : (p : ℚ) / d * (2 : ℚ) ^ (-53 : ℤ) ≤ 1 * (1 / 1000) :=
      mul_le_mul hpd1 hsmall (le_of_lt hs0) (by norm_num)
    unfold jsDivPair
    linarith [h1]
  have hx0 : 0 ≤ dblVal (jsDivPair p d) := dblVal_nonneg _
  have h2 := dblMul100_le (jsDivPair p d)
  have hm : 100 * dblVal (jsDivPair p d) ≤ 100 * (1 + 2 / 1000) := by linarith
  have hm0 : 0 ≤ 100 * dblVal (jsDivPair p d) := by linarith
  have hm2 : 100 * dblVal (jsDivPair p d) * (2 : ℚ) ^ (-53 : ℤ) ≤
      100 * (1 + 2 / 1000) * (1 / 1000) :=
    mul_le_mul hm hsmall (le_of_lt hs0) (by norm_num)
  have hfin : dblVal (dblMul100 (jsDivPair p d)) + 1 / 2 < ((101 : ℤ) : ℚ) := by
    push_cast
    generalize hGs : (2 : ℚ) ^ (-53 : ℤ) = s at h2 hm2
    generalize hGt : (2 : ℚ) ^ (-1075 : ℤ) = t at h2 hsmall2
    linarith
  have := Int.floor_lt.mpr hfin
  omega

/-- The compliance score is a natural number at most 100, is 0 on an empty
breakdown, and on a nonempty one equals `⌊v + 1/2⌋` for the binary64 value
`v` of `(pass / (pass + fail + warning)) * 100`. -/
theorem complianceScore_spec (s : ComplianceStats) :
    0 ≤ complianceScore s ∧ complianceScore s ≤ 100 ∧
    (s.pass + s.fail + s.warning = 0 → complianceScore s = 0) ∧
    (0 < s.pass + s.fail + s.warning →
      complianceScore s =
        ⌊dblVal (dblMul100 (jsDivPair s.pass (s.pass + s.fail + s.warning))) + 1 / 2⌋) := by
  unfold complianceScore
  by_cases h : s.pass + s.fail + s.warning > 0
  · rw [if_pos h]
    refine ⟨Int.natCast_nonneg _, ?_, fun hz => absurd hz (by omega),
      fun _ => mathRoundDbl_eq_floor _⟩
    exact score_le_100 s.pass (s.pass + s.fail + s.warning) (by omega) (by omega)
  · rw [if_neg h]
    exact ⟨le_refl 0, by norm_num, fun _ => rfl, fun hlt => absurd hlt h⟩

/-- C3: the report summary's compliance score is `Math.round` of
pass / (pass + fail + warning) × 100 evaluated in IEEE-754 binary64
arithmetic over the status bucket counts — an integer within 0..100, exactly
0 when the denominator is 0, and on a nonempty breakdown equal to
`⌊v + 1/2⌋` for the binary64 value `v` of the computed expression. -/
theorem report_compliance_score (now : String) (scan : Scan)
    (vulnerabilities : List Vulnerability) (complianceResults : List ComplianceResult)
    (sbomComponents : List SBOMComponent) (analysisLogs : List AnalysisLog) :
    0 ≤ (buildReport now scan vulnerabilities complianceResults sbomComponents
        analysisLogs).summary.compliance_score ∧
    (buildReport now scan vulnerabilities complianceResults sbomComponents
        analysisLogs).summary.compliance_score ≤ 100 ∧
    ((complianceResults.filter fun c => c.status = .pass).length +
        (complianceResults.filter fun c => c.status = .fail).length +
        (complianceResults.filter fun c => c.status = .warning).length = 0 →
      (buildReport now scan vulnerabilities complianceResults sbomComponents
        analysisLogs).summary.compliance_score = 0) ∧
    (0 < (complianceResults.filter fun c => c.status = .pass).length +
        (complianceResults.filter fun c => c.status = .fail).length +
        (complianceResults.filter fun c => c.status = .warning).length →
      (buildReport now scan vulnerabilities complianceResults sbomComponents
            analysisLogs).summary.compliance_score =
        ⌊dblVal (dblMul100 (jsDivPair
            (complianceResults.filter fun c => c.status = .pass).length
            ((complianceResults.filter fun c => c.status = .pass).length +
              (complianceResults.filter fun c => c.status = .fail).length +
              (complianceResults.filter fun c => c.status = .warning).length))) + 1 / 2⌋) :=
  complianceScore_spec (mkComplianceStats complianceResults)

theorem report_compliance_score_witness :
    0 ≤ (buildReport "t" scanW [] complianceRowsW [] []).summary.compliance_score ∧
    (buildReport "t" scanW [] complianceRowsW [] []).summary.compliance_score ≤ 100 :=
  ⟨(report_compliance_score "t" scanW [] complianceRowsW [] []).1,
   (report_compliance_score "t" scanW [] complianceRowsW [] []).2.1⟩

/-- C3 counterexample: with 23 pass and 17 fail rows the program divides
23 by 40 and multiplies by 100 in binary64, producing the double just below
57.5 (57.49999999999999), so `Math.round` yields 57 — while half-up rounding
of the exact rational (23 / 40) × 100 = 57.5 yields 58.  Reading the score
as exact-rational rounding is therefore false of the program. -/
theorem compliance_score_not_exact_round :
    mkComplianceStats complianceRows2317 = ⟨23, 17, 0⟩ ∧
    (buildReport "t" scanW [] complianceRows2317 [] []).summary.compliance_score = 57 ∧
    round (((23 : ℚ) / (23 + 17 + 0)) * 100) = 58 := by
  have h1 : mkComplianceStats complianceRows2317 = ⟨23, 17, 0⟩ := by decide
  have h2 : complianceScore ⟨23, 17, 0⟩ = 57 := by
    have h : complianceScore ⟨23, 17, 0⟩ =
        ((mathRoundDbl (dblMul100 (jsDivPair 23 40)) : ℕ) : ℤ) := by
      simp [complianceScore]
    rw [h, jsDivPair_23_40, dblMul100_23_40, mathRound_23_40]
    rfl
  refine ⟨h1, ?_, round_2340_58⟩
  show complianceScore (mkComplianceStats complianceRows2317) = 57
  rw [h1, h2]

/-- C9: requesting format pdf goes through the client hook's pdf-to-json
rewrite, so the handler produces exactly the same pretty-printed JSON report
and the same filename hint as requesting format json. -/
theorem report_pdf_degrades_to_json (now nowLocale scanId : String)
    (scanRow : Option Scan) (vulnRows : List Vulnerability)
    (complianceResults : List ComplianceResult) (sbomComponents : List SBOMComponent)
    (analysisLogs : List AnalysisLog) :
    generateReportHandler now nowLocale scanId (clientReportFormat "pdf") scanRow
        vulnRows complianceResults sbomComponents analysisLogs =
      generateReportHandler now nowLocale scanId (clientReportFormat "json") scanRow
        vulnRows complianceResults sbomComponents analysisLogs ∧
    (∀ scan, scanRow = some scan → scanId ≠ "" →
      generateReportHandler now nowLocale scanId (clientReportFormat "pdf") scanRow
          vulnRows complianceResults sbomComponents analysisLogs =
        .ok (.jsonDoc (buildReport now scan (fetchVulnerabilities vulnRows)
            complianceResults sbomComponents analysisLogs))
          ("scan-report-" ++ scanId ++ ".json") "application/json") := by
  constructor
  · rfl
  · intro scan hscan hid
    subst hscan
    simp [generateReportHandler, clientReportFormat, hid]

theorem report_pdf_degrades_to_json_witness :
    generateReportHandler "t" "loc" "scan-1" (clientReportFormat "pdf") (some scanW)
        [] complianceRowsW [] [] =
      .ok (.jsonDoc (buildReport "t" scanW (fetchVulnerabilities [])
          complianceRowsW [] []))
        ("scan-report-" ++ "scan-1" ++ ".json") "application/json" :=
  (report_pdf_degrades_to_json "t" "loc" "scan-1" (some scanW) [] complianceRowsW
    [] []).2 scanW rfl (by decide)

/-- C4: the report's vulnerability list is the severity-ordered query result
(critical ordinal 0 first through info ordinal 4 last), a permutation of the
scan's rows; the markdown detailed-vulnerabilities section is rendered from
that same ordered list. -/
theorem report_vulnerabilities_sorted (now nowLocale : String) (scan : Scan)
    (vulnRows : List Vulnerability) (complianceResults : List ComplianceResult)
    (sbomComponents : List SBOMComponent) (analysisLogs : List AnalysisLog) :
    List.Sorted (fun a b : ReportVulnEntry => severityOrd a.severity ≤ severityOrd b.severity)
      (buildReport now scan (fetchVulnerabilities vulnRows) complianceResults
        sbomComponents analysisLogs).vulnerabilities ∧
    List.Perm (buildReport now scan (fetchVulnerabilities vulnRows) complianceResults
        sbomComponents analysisLogs).vulnerabilities (vulnRows.map projectVuln) ∧
    List.Sorted (fun a b : Vulnerability => severityOrd a.severity ≤ severityOrd b.severity)
      (fetchVulnerabilities vulnRows) ∧
    (mdDetailedVulns (fetchVulnerabilities vulnRows)).data <:+:
      (generateMarkdownReport nowLocale scan (fetchVulnerabilities vulnRows)
        complianceResults sbomComponents).data ∧
    severityOrd .critical = 0 ∧ severityOrd .high = 1 ∧ severityOrd .medium = 2 ∧
    severityOrd .low = 3 ∧ severityOrd .info = 4 := by
  have hsorted : List.Sorted
      (fun a b : Vulnerability => severityOrd a.severity ≤ severityOrd b.severity)
      (fetchVulnerabilities vulnRows) := List.sorted_insertionSort _ _
  refine ⟨?_, ?_, hsorted, ?_, rfl, rfl, rfl, rfl, rfl⟩
  · exact List.Pairwise.map projectVuln (fun a b hab => hab) hsorted
  · exact (List.perm_insertionSort _ vulnRows).map projectVuln
  · simp only [generateMarkdownReport]
    exact infix_append_right _ (infix_append_right _ (infix_append_right _
      (infix_self_right _ _)))

theorem report_vulnerabilities_sorted_witness :
    List.Sorted (fun a b : ReportVulnEntry => severityOrd a.severity ≤ severityOrd b.severity)
      (buildReport "t" scanW (fetchVulnerabilities vulnRowsW) complianceRowsW []
        []).vulnerabilities :=
  (report_vulnerabilities_sorted "t" "loc" scanW vulnRowsW complianceRowsW [] []).1

/-! Claims about the SWID encoder and XML escaping. -/

/-- C2 (amended): the scan name, version, manufacturer, ECU type and the
component names and versions inserted into the SWID XML are escaped through
`escapeXml`, the ordered ampersand-first substitution chain; on the literal
component name from the spec the chain yields exactly the five entities with
no double-escaping.  (The amendment: the tag id and the architecture are
inserted into the template without escaping — see the counterexample — and
component source files never reach the emitted template.) -/
theorem swid_escaping (scan : Scan) (components : List SBOMComponent)
    (c : SBOMComponent) (hc : c ∈ components) :
    (escapeXml c.component_name).data <:+: (generateSWID scan components).data ∧
    (escapeXml (jsOr c.version "unknown")).data <:+: (generateSWID scan components).data ∧
    (escapeXml scan.ecu_name).data <:+: (generateSWID scan components).data ∧
    (escapeXml (jsOr scan.version "1.0.0")).data <:+: (generateSWID scan components).data ∧
    (escapeXml (jsOr scan.manufacturer "Unknown")).data <:+:
      (generateSWID scan components).data ∧
    (escapeXml (jsOr scan.version "unknown")).data <:+: (generateSWID scan components).data ∧
    (escapeXml scan.ecu_type).data <:+: (generateSWID scan components).data ∧
    escapeXml "A&B<C>\"D'E" = "A&amp;B&lt;C&gt;&quot;D&apos;E" := by
  have hline : (fun comp : SBOMComponent =>
      "      <File name=\"" ++ escapeXml comp.component_name
        ++ "\" version=\"" ++ escapeXml (jsOr comp.version "unknown") ++ "\" />") c ∈
      components.map (fun comp : SBOMComponent =>
      "      <File name=\"" ++ escapeXml comp.component_name
        ++ "\" version=\"" ++ escapeXml (jsOr comp.version "unknown") ++ "\" />") :=
    List.mem_map_of_mem _ hc
  have hname : (escapeXml c.component_name).data <:+:
      ("      <File name=\"" ++ escapeXml c.component_name
        ++ "\" version=\"" ++ escapeXml (jsOr c.version "unknown") ++ "\" />").data :=
    infix_append_right _ (infix_append_right _ (infix_append_right _
      (infix_self_right _ _)))
  have hver : (escapeXml (jsOr c.version "unknown")).data <:+:
      ("      <File name=\"" ++ escapeXml c.component_name
        ++ "\" version=\"" ++ escapeXml (jsOr c.version "unknown") ++ "\" />").data :=
    infix_append_right _ (infix_self_right _ _)
  refine ⟨?_, ?_, ?_, ?_, ?_, ?_, ?_, by decide⟩
  · exact infix_append_right _ (infix_append_left _
      (joinSep_infix_of_mem_trans _ hline hname))
  · exact infix_append_right _ (infix_append_left _
      (joinSep_infix_of_mem_trans _ hline hver))
  · exact infix_append_right _ (infix_append_right _ (infix_append_right _
      (infix_append_right _ (infix_append_right _ (infix_append_right _
      (infix_append_right _ (infix_append_right _ (infix_append_right _
      (infix_self_right _ _)))))))))
  · exact infix_append_right _ (infix_append_right _ (infix_append_right _
      (infix_append_right _ (infix_append_right _ (infix_append_right _
      (infix_append_right _ (infix_append_right _ (infix_append_right _
      (infix_append_right _ (infix_append_right _ (infix_append_right _
      (infix_append_right _ (infix_self_right _ _)))))))))))))
  · exact infix_append_right _ (infix_append_right _ (infix_append_right _
      (infix_append_right _ (infix_append_right _ (infix_append_right _
      (infix_append_right _ (infix_append_right _ (infix_append_right _
      (infix_append_right _ (infix_append_right _ (infix_self_right _ _)))))))))))
  · exact infix_append_right _ (infix_append_right _ (infix_append_right _
      (infix_append_right _ (infix_append_right _ (infix_append_right _
      (infix_append_right _ (infix_self_right _ _)))))))
  · exact infix_append_right _ (infix_append_right _ (infix_append_right _
      (infix_self_right _ _)))

set_option maxRecDepth 20000 in
/-- C2 counterexample: the architecture value is interpolated into the SWID
`revision` attribute without `escapeXml`, so its ampersand appears raw in the
output and the escaped form appears nowhere. -/
theorem swid_architecture_not_escaped :
    "revision=\"A&B\"".data <:+: (generateSWID scanAmp []).data ∧
    ¬ ("A&amp;B".data <:+: (generateSWID scanAmp []).data) := by
  constructor
  · decide
  · decide

theorem swid_escaping_witness :
    (escapeXml compSpecial.component_name).data <:+:
      (generateSWID scanW [compSpecial]).data :=
  (swid_escaping scanW [compSpecial] compSpecial (by simp)).1

/-! Claims about the CycloneDX and SPDX encoders. -/

/-- C5: the CycloneDX components array has one library-typed entry per input
component at the same index, with bom-ref `component-<i>`, the component
name, the version (literal `unknown` when absent), an empty license-id array
when the license is absent, and a purl assembled from name and version; every
CVE attached to component i yields a top-level vulnerability entry citing NVD
whose affects reference is `component-<i>`. -/
theorem cyclonedx_components_and_vulns (now : String) (scan : Scan)
    (components : List SBOMComponent) :
    (generateCycloneDX now scan components).components.length = components.length ∧
    (∀ i (h : i < components.length)
        (h2 : i < (generateCycloneDX now scan components).components.length),
      ((generateCycloneDX now scan components).components.get ⟨i, h2⟩).type = "library" ∧
      ((generateCycloneDX now scan components).components.get ⟨i, h2⟩).bomRef =
        "component-" ++ natToString i ∧
      ((generateCycloneDX now scan components).components.get ⟨i, h2⟩).name =
        (components.get ⟨i, h⟩).component_name ∧
      ((components.get ⟨i, h⟩).version = none →
        ((generateCycloneDX now scan components).components.get ⟨i, h2⟩).version =
          "unknown") ∧
      ((components.get ⟨i, h⟩).license = none →
        ((generateCycloneDX now scan components).components.get ⟨i, h2⟩).licenses = []) ∧
      ((generateCycloneDX now scan components).components.get ⟨i, h2⟩).purl =
        "pkg:generic/"
          ++ ((generateCycloneDX now scan components).components.get ⟨i, h2⟩).name
          ++ "@"
          ++ ((generateCycloneDX now scan components).components.get ⟨i, h2⟩).version) ∧
    (∀ i (h : i < components.length) cve,
      cve ∈ jsList (components.get ⟨i, h⟩).vulnerabilities →
      ∃ v ∈ (generateCycloneDX now scan components).vulnerabilities,
        v.id = cve ∧ v.source.name = "NVD" ∧
        v.affects = [⟨"component-" ++ natToString i⟩]) := by
  refine ⟨List.length_mapIdx, ?_, ?_⟩
  · intro i h h2
    have hg : (generateCycloneDX now scan components).components.get ⟨i, h2⟩ =
        (fun index comp =>
          ({ type := "library"
             bomRef := "component-" ++ natToString index
             name := comp.component_name
             version := jsOr comp.version "unknown"
             licenses :=
               match comp.license with
               | some l => if l = "" then [] else [⟨l⟩]
               | none => []
             purl := "pkg:generic/" ++ comp.component_name ++ "@" ++ jsOr comp.version
               "unknown"
             properties := [⟨"source_file", some (jsOr comp.source_file "unknown")⟩] } :
            CdxComponent)) i (components.get ⟨i, h⟩) :=
      List.get_mapIdx components _ i h
    rw [hg]
    refine ⟨rfl, rfl, rfl, ?_, ?_, rfl⟩
    · intro hv
      rw [List.get_eq_getElem] at hv
      simp [jsOr, hv]
    · intro hl
      rw [List.get_eq_getElem] at hl
      simp [hl]
  · intro i h cve hcve
    have hg : (components.mapIdx fun compIndex comp =>
        (jsList comp.vulnerabilities).map fun cve =>
          ({ id := cve
             source := ⟨"NVD", "https://nvd.nist.gov/vuln/detail/" ++ cve⟩
             affects := [⟨"component-" ++ natToString compIndex⟩] } :
            CdxVulnerability)).get ⟨i, by simpa [List.length_mapIdx] using h⟩ =
        (jsList (components.get ⟨i, h⟩).vulnerabilities).map fun cve =>
          ({ id := cve
             source := ⟨"NVD", "https://nvd.nist.gov/vuln/detail/" ++ cve⟩
             affects := [⟨"component-" ++ natToString i⟩] } : CdxVulnerability) :=
      List.get_mapIdx components _ i h
    have hbmem : ((jsList (components.get ⟨i, h⟩).vulnerabilities).map fun cve =>
        ({ id := cve
           source := ⟨"NVD", "https://nvd.nist.gov/vuln/detail/" ++ cve⟩
           affects := [⟨"component-" ++ natToString i⟩] } : CdxVulnerability)) ∈
        (components.mapIdx fun compIndex comp =>
          (jsList comp.vulnerabilities).map fun cve =>
            ({ id := cve
               source := ⟨"NVD", "https://nvd.nist.gov/vuln/detail/" ++ cve⟩
               affects := [⟨"component-" ++ natToString compIndex⟩] } :
              CdxVulnerability)) :=
      hg ▸ List.get_mem _ _ _
    refine ⟨_, List.mem_flatten.mpr ⟨_, hbmem, List.mem_map_of_mem _ hcve⟩, rfl, rfl, rfl⟩

theorem cyclonedx_witness :
    ((generateCycloneDX "t" scanW [compSpecial]).components.get
      ⟨0, by decide⟩).bomRef = "component-" ++ natToString 0 :=
  ((cyclonedx_components_and_vulns "t" scanW [compSpecial]).2.1 0 (by decide)
    (by decide)).2.1

theorem spdx_root_ne_pkg (s : String) :
    "SPDXRef-RootPackage" ≠ "SPDXRef-Package-" ++ s := by
  intro h
  have h2 := congrArg (fun t : String => t.data[8]?) h
  simp only [strData_append] at h2
  rw [List.getElem?_append] at h2
  rw [if_pos (by decide : (8 : Nat) < ("SPDXRef-Package-".data).length)] at h2
  have h3 : ("SPDXRef-RootPackage".data)[8]? = some 'R' := by decide
  have h4 : ("SPDXRef-Package-".data)[8]? = some 'P' := by decide
  rw [h3, h4] at h2
  simp at h2

theorem spdxPkgId_injective :
    Function.Injective fun i : Nat => "SPDXRef-Package-" ++ natToString i := by
  intro a b hab
  simp only at hab
  have hd := congrArg String.data hab
  rw [strData_append, strData_append] at hd
  exact natToString_injective
    (string_eq_of_data_eq (List.append_cancel_left hd))

theorem spdx_package_ids_count (N j : Nat) (hj : j < N) :
    (("SPDXRef-RootPackage" :: (List.range N).map
        fun k => "SPDXRef-Package-" ++ natToString k).count
      ("SPDXRef-Package-" ++ natToString j)) = 1 := by
  rw [List.count_cons]
  rw [List.count_map_of_injective _ _ spdxPkgId_injective]
  rw [List.count_eq_one_of_mem (List.nodup_range N) (List.mem_range.mpr hj)]
  simp [spdx_root_ne_pkg (natToString j)]

/-- C6: the SPDX output has the root package followed by one package per
component (`SPDXRef-Package-<i>`) whose concluded and declared license is the
component's license or NOASSERTION when absent, carrying one cpe23Type
security reference per attached CVE id; the relationships array has one entry
per component stating the root CONTAINS `SPDXRef-Package-<i>`, and each
relationship's related element matches exactly one emitted package id. -/
theorem spdx_packages_and_relationships (now : String) (scan : Scan)
    (components : List SBOMComponent) :
    (generateSPDX now scan components).packages.length = components.length + 1 ∧
    (∀ h0 : 0 < (generateSPDX now scan components).packages.length,
      ((generateSPDX now scan components).packages.get ⟨0, h0⟩).SPDXID =
        "SPDXRef-RootPackage") ∧
    (∀ i (h : i < components.length)
        (h2 : i + 1 < (generateSPDX now scan components).packages.length),
      ((generateSPDX now scan components).packages.get ⟨i + 1, h2⟩).SPDXID =
        "SPDXRef-Package-" ++ natToString i ∧
      ((components.get ⟨i, h⟩).license = none →
        ((generateSPDX now scan components).packages.get ⟨i + 1, h2⟩).licenseConcluded =
          some "NOASSERTION" ∧
        ((generateSPDX now scan components).packages.get ⟨i + 1, h2⟩).licenseDeclared =
          some "NOASSERTION") ∧
      (∀ l, (components.get ⟨i, h⟩).license = some l → l ≠ "" →
        ((generateSPDX now scan components).packages.get ⟨i + 1, h2⟩).licenseConcluded =
          some l ∧
        ((generateSPDX now scan components).packages.get ⟨i + 1, h2⟩).licenseDeclared =
          some l) ∧
      ((generateSPDX now scan components).packages.get ⟨i + 1, h2⟩).externalRefs =
        some ((jsList (components.get ⟨i, h⟩).vulnerabilities).map fun cve =>
          ⟨"SECURITY", "cpe23Type", cve⟩)) ∧
    (generateSPDX now scan components).relationships.length = components.length ∧
    (∀ j (h2 : j < (generateSPDX now scan components).relationships.length),
      ((generateSPDX now scan components).relationships.get ⟨j, h2⟩).spdxElementId =
        "SPDXRef-RootPackage" ∧
      ((generateSPDX now scan components).relationships.get ⟨j, h2⟩).relationshipType =
        "CONTAINS" ∧
      ((generateSPDX now scan components).relationships.get ⟨j, h2⟩).relatedSpdxElement =
        "SPDXRef-Package-" ++ natToString j ∧
      (((generateSPDX now scan components).packages.map fun p => p.SPDXID).count
        ((generateSPDX now scan components).relationships.get
          ⟨j, h2⟩).relatedSpdxElement) = 1) := by
  have hlen : (generateSPDX now scan components).packages.length =
      components.length + 1 := by
    simp [generateSPDX, List.length_mapIdx]
  have hrellen : (generateSPDX now scan components).relationships.length =
      components.length := by
    simp [generateSPDX, List.length_mapIdx]
  have hrelget : ∀ j (h2 : j < (generateSPDX now scan components).relationships.length),
      (generateSPDX now scan components).relationships.get ⟨j, h2⟩ =
        ({ spdxElementId := "SPDXRef-RootPackage"
           relationshipType := "CONTAINS"
           relatedSpdxElement := "SPDXRef-Package-" ++ natToString j } :
          SpdxRelationship) := by
    intro j h2
    have hj : j < components.length := by rwa [hrellen] at h2
    exact List.get_mapIdx components _ j hj
  have hmap : ((generateSPDX now scan components).packages.map fun p => p.SPDXID) =
      "SPDXRef-RootPackage" :: (List.range components.length).map
        (fun k => "SPDXRef-Package-" ++ natToString k) := by
    simp only [generateSPDX, List.map_cons]
    congr 1
    exact map_mapIdx_eq_range_map components _ _ _ (fun i hi => rfl)
  refine ⟨hlen, fun h0 => rfl, ?_, hrellen, ?_⟩
  · intro i h h2
    have hg : (generateSPDX now scan components).packages.get ⟨i + 1, h2⟩ =
        (fun index comp =>
          ({ SPDXID := "SPDXRef-Package-" ++ natToString index
             name := comp.component_name
             versionInfo := jsOr comp.version "NOASSERTION"
             packageFileName := none
             downloadLocation := "NOASSERTION"
             filesAnalyzed := false
             supplier := none
             primaryPackagePurpose := none
             licenseConcluded := some (jsOr comp.license "NOASSERTION")
             licenseDeclared := some (jsOr comp.license "NOASSERTION")
             copyrightText := some "NOASSERTION"
             externalRefs := some ((jsList comp.vulnerabilities).map fun cve =>
               ⟨"SECURITY", "cpe23Type", cve⟩) } : SpdxPackage)) i
          (components.get ⟨i, h⟩) :=
      List.get_mapIdx components _ i h
    rw [hg]
    refine ⟨rfl, ?_, ?_, rfl⟩
    · intro hl
      rw [List.get_eq_getElem] at hl
      constructor <;> simp [jsOr, hl]
    · intro l hl hne
      rw [List.get_eq_getElem] at hl
      constructor <;> simp [jsOr, hl, hne]
  · intro j h2
    have hj : j < components.length := by rwa [hrellen] at h2
    rw [hrelget j h2]
    refine ⟨rfl, rfl, rfl, ?_⟩
    rw [hmap]
    exact spdx_package_ids_count components.length j hj

theorem spdx_witness :
    (((generateSPDX "t" scanW [compSpecial]).packages.map fun p => p.SPDXID).count
      ((generateSPDX "t" scanW [compSpecial]).relationships.get
        ⟨0, by decide⟩).relatedSpdxElement) = 1 :=
  ((spdx_packages_and_relationships "t" scanW [compSpecial]).2.2.2.2 0 (by decide)).2.2.2

/-! Claim about the export handler's treatment of empty component lists. -/

/-- C10: when the scan row exists the exporter never takes the 404 branch —
the component query yields an array (possibly empty), and an empty array is
truthy — so a component-less scan exports successfully, producing documents
with zero component entries (for SPDX, only the root package); the 404 branch
is reached whenever the scan lookup returns no row. -/
theorem export_sbom_zero_components (now : String) (scan : Scan) :
    (∀ components format,
      exportSbomHandler now (some scan) (some components) format ≠ .notFound) ∧
    (∀ componentRows format,
      exportSbomHandler now none componentRows format = .notFound) ∧
    exportSbomHandler now (some scan) (some []) "cyclonedx" =
      .ok (.cyclonedx (generateCycloneDX now scan []))
        (scan.ecu_name ++ "-sbom-cyclonedx.json") "application/json" ∧
    (generateCycloneDX now scan []).components = [] ∧
    (generateCycloneDX now scan []).vulnerabilities = [] ∧
    exportSbomHandler now (some scan) (some []) "spdx" =
      .ok (.spdx (generateSPDX now scan []))
        (scan.ecu_name ++ "-sbom-spdx.json") "application/json" ∧
    (generateSPDX now scan []).packages.length = 1 ∧
    (generateSPDX now scan []).relationships = [] ∧
    exportSbomHandler now (some scan) (some []) "swid" =
      .ok (.swid (generateSWID scan []))
        (scan.ecu_name ++ "-sbom-swid.xml") "application/xml" := by
  refine ⟨?_, ?_, rfl, by simp [generateCycloneDX], by simp [generateCycloneDX],
    rfl, by simp [generateSPDX], by simp [generateSPDX], rfl⟩
  · intro components format
    simp only [exportSbomHandler]
    split_ifs <;> simp
  · intro componentRows format
    cases componentRows <;> rfl

theorem export_sbom_zero_components_witness :
    exportSbomHandler "t" (some scanW) (some []) "cyclonedx" =
      .ok (.cyclonedx (generateCycloneDX "t" scanW []))
        (scanW.ecu_name ++ "-sbom-cyclonedx.json") "application/json" :=
  (export_sbom_zero_components "t" scanW).2.2.1
